import Mathlib

/-!
# FTP client core: control channel, passive-mode negotiation, transfers

A shallow embedding of `FTPClient.cpp`.  Strings are lists of characters,
machine integers are mathematical integers with explicit range checks, and
the operating system (sockets, file system) is a family of oracles indexed
by call counters, so that every server behaviour is some `Env`.
-/

namespace FTPClient

/-! ## Strings and the C++ library functions the client calls -/

/-- A `std::string`: a finite sequence of characters. -/
abbrev Str := List Char

/-- The constant `BUFFER_SIZE` of `FTPClient.cpp`. -/
def BUFFER_SIZE : Nat := 8192

/-- The value `std::string::npos`, the largest `size_t`. -/
def npos : Nat := 2 ^ 64 - 1

/-- Arithmetic on `size_t` wraps modulo `2^64`. -/
def size_t (n : Int) : Nat := (n % 2 ^ 64).toNat

/-- The exceptions the client and the library functions it calls can throw. -/
inductive Exn where
  | runtime_error (what : Str)
  | invalid_argument (what : Str)
  | out_of_range (what : Str)
  deriving DecidableEq, Repr

/-- How a computation ends: a value, a thrown exception, undefined behaviour
(an out-of-bounds `operator[]` or signed overflow), or a loop that used up its
iteration budget. -/
inductive Outcome (α : Type) where
  | ok (val : α)
  | throw (e : Exn)
  | undefined
  | diverge
  deriving DecidableEq, Repr

/-- Index of the first `c` in `s`, counting from `i`. -/
def indexFrom (c : Char) : Str → Nat → Option Nat
  | [], _ => none
  | x :: xs, i => if x = c then some i else indexFrom c xs (i + 1)

/-- The call `s.find(c, pos)`: first position at or after `pos` holding `c`, else `npos`. -/
def find (s : Str) (c : Char) (pos : Nat) : Nat :=
  match indexFrom c (s.drop pos) pos with
  | some i => i
  | none => npos

/-- The call `s.substr(pos, n)`: throws `out_of_range` when `pos > s.size()`. -/
def substr (s : Str) (pos n : Nat) : Outcome Str :=
  if pos > s.length then .throw (.out_of_range "basic_string::substr".toList)
  else .ok ((s.drop pos).take n)

/-- The call `s.erase(pos, n)`: throws `out_of_range` when `pos > s.size()`. -/
def erase (s : Str) (pos n : Nat) : Outcome Str :=
  if pos > s.length then .throw (.out_of_range "basic_string::erase".toList)
  else .ok (s.take pos ++ (s.drop pos).drop n)

/-- The C `isspace` in the default locale. -/
def isspace (c : Char) : Bool :=
  c = ' ' || c = Char.ofNat 9 || c = Char.ofNat 10 || c = Char.ofNat 11 ||
  c = Char.ofNat 12 || c = Char.ofNat 13

/-- Value of a run of decimal digits, most significant first. -/
def digitsValue (ds : Str) : Nat :=
  ds.foldl (fun acc c => acc * 10 + (c.toNat - 48)) 0

/-- The call `std::stoi(s)`: skips leading white space, takes an optional sign
and the longest run of decimal digits; `invalid_argument` when there is no
digit, `out_of_range` when the value does not fit an `int`.  Trailing
characters are ignored. -/
def stoi (s : Str) : Outcome Int :=
  let s1 := s.dropWhile isspace
  let signed : Bool × Str :=
    match s1 with
    | '-' :: t => (true, t)
    | '+' :: t => (false, t)
    | _ => (false, s1)
  let ds := signed.2.takeWhile Char.isDigit
  if ds.isEmpty then .throw (.invalid_argument "stoi".toList)
  else
    let v : Int := if signed.1 then - (digitsValue ds : Int) else (digitsValue ds : Int)
    if v < -2147483648 ∨ 2147483647 < v then .throw (.out_of_range "stoi".toList)
    else .ok v

/-- The call `std::to_string(v)` for an `int`. -/
def to_string (v : Int) : Str :=
  if v < 0 then '-' :: Nat.toDigits 10 v.natAbs else Nat.toDigits 10 v.toNat

/-! ## `checkResponseCode` -/

/-- `FTPClient::checkResponseCode`: the returned flag, and the text written to
`std::cerr` (empty when the code matches). -/
def checkResponseCode (response expectedCode : Str) : Bool × Str :=
  match substr response 0 3 with
  | .ok code =>
    if code ≠ expectedCode then
      (false, "Expected response starting with ".toList ++ expectedCode ++
        ", but got: ".toList ++ response ++ "\n".toList)
    else (true, [])
  | _ => (false, [])

/-! ## Decoding the PASV reply (`enterPassiveMode`, lines 135-152) -/

/-- The loop `while ((pos = data.find(',')) != npos)` with its `push_back`
and `erase`; returns the remaining `data` and the collected `values`.
The first argument bounds the number of iterations. -/
def splitLoop : Nat → Str → List Int → Outcome (Str × List Int)
  | 0, _, _ => .diverge
  | fuel + 1, data, values =>
    let pos := find data ',' 0
    if pos ≠ npos then
      match substr data 0 pos with
      | .ok field =>
        match stoi field with
        | .ok v =>
          match erase data 0 (pos + 1) with
          | .ok data1 => splitLoop fuel data1 (values ++ [v])
          | .throw e => .throw e
          | .undefined => .undefined
          | .diverge => .diverge
        | .throw e => .throw e
        | .undefined => .undefined
        | .diverge => .diverge
      | .throw e => .throw e
      | .undefined => .undefined
      | .diverge => .diverge
    else .ok (data, values)

/-- The read `values[i]` of a `std::vector<int>`: undefined behaviour past the end. -/
def vecAt (values : List Int) (i : Nat) : Outcome Int :=
  match values.get? i with
  | some v => .ok v
  | none => .undefined

/-- An `int` result: signed overflow is undefined behaviour. -/
def intResult (v : Int) : Outcome Int :=
  if v < -2147483648 ∨ 2147483647 < v then .undefined else .ok v

/-- Lines 150-152: the dotted IP string and the port from the parsed values. -/
def endpointOf (values : List Int) : Outcome (Str × Int) :=
  match vecAt values 0, vecAt values 1, vecAt values 2, vecAt values 3 with
  | .ok v0, .ok v1, .ok v2, .ok v3 =>
    let ip := to_string v0 ++ ".".toList ++ to_string v1 ++ ".".toList ++
              to_string v2 ++ ".".toList ++ to_string v3
    match vecAt values 4, vecAt values 5 with
    | .ok v4, .ok v5 =>
      match intResult (v4 * 256) with
      | .ok hi =>
        match intResult (hi + v5) with
        | .ok port => .ok (ip, port)
        | _ => .undefined
      | _ => .undefined
    | _, _ => .undefined
  | _, _, _, _ => .undefined

/-- Lines 135-152 of `enterPassiveMode`: from the response text to the
endpoint `(ip, port)`. -/
def decodePasv (response : Str) : Outcome (Str × Int) :=
  let start := find response '(' 0
  let stop := find response ')' start
  match substr response (size_t ((start : Int) + 1)) (size_t ((stop : Int) - start - 1)) with
  | .ok data =>
    match splitLoop (data.length + 1) data [] with
    | .ok (rest, values) =>
      match stoi rest with
      | .ok v => endpointOf (values ++ [v])
      | .throw e => .throw e
      | .undefined => .undefined
      | .diverge => .diverge
    | .throw e => .throw e
    | .undefined => .undefined
    | .diverge => .diverge
  | .throw e => .throw e
  | .undefined => .undefined
  | .diverge => .diverge

/-! ## The operating system: sockets and files as oracles -/

/-- A system call on a socket, with its arguments and what it returned. -/
inductive Event where
  | send (fd : Int) (buf : Str) (ret : Int)
  | recv (fd : Int) (len : Nat) (ret : Int) (got : Str)
  | socket (ret : Int)
  | connect (fd : Int) (ip : Str) (port : Int) (ret : Int)
  | close (fd : Int)
  deriving DecidableEq, Repr

/-- The environment of one client: the control socket it owns and, for each
kind of system call, what the `k`-th call of that kind returns.  A `recv`
oracle gives `none` for an error (`-1`) and `some bytes` for the bytes that
are available (the call delivers at most the requested length; no bytes is
end-of-stream). -/
structure Env where
  controlSocket : Int
  ctrlSend : Nat → Str → Int
  ctrlRecv : Nat → Option Str
  socketRet : Nat → Int
  connectRet : Nat → Int
  dataSend : Nat → Str → Int
  dataRecv : Nat → Option Str
  strerror : Nat → Str
  fsExists : Str → Bool
  fsIsDirectory : Str → Bool
  openRead : Str → Option Str
  openWrite : Str → Bool

/-- What the client has done so far: the socket calls in order, how many
calls of each kind were made, the console streams and the files written. -/
structure World where
  trace : List Event
  nCtrlSend : Nat
  nCtrlRecv : Nat
  nSocket : Nat
  nConnect : Nat
  nDataSend : Nat
  nDataRecv : Nat
  cout : Str
  cerr : Str
  files : List (Str × Str)
  dirs : List Str
  deriving DecidableEq, Repr

/-- The state before the first call. -/
def World.init : World :=
  { trace := [], nCtrlSend := 0, nCtrlRecv := 0, nSocket := 0, nConnect := 0,
    nDataSend := 0, nDataRecv := 0, cout := [], cerr := [], files := [], dirs := [] }

/-- A computation of the client: from a state to an outcome and the state reached. -/
abbrev M (α : Type) := World → Outcome α × World

/-- Sequencing: an exception, undefined behaviour or divergence ends the computation. -/
def andThen {α β : Type} (m : M α) (f : α → M β) : M β := fun w =>
  match m w with
  | (.ok a, w1) => f a w1
  | (.throw e, w1) => (.throw e, w1)
  | (.undefined, w1) => (.undefined, w1)
  | (.diverge, w1) => (.diverge, w1)

/-- A computation without effect. -/
def liftPure {α : Type} (o : Outcome α) : M α := fun w => (o, w)

/-- A step that only changes the state. -/
def effect (g : World → World) : M Unit := fun w => (.ok (), g w)

/-- The text `strerror(errno)` after the last system call. -/
def errnoText (env : Env) (w : World) : Str := env.strerror w.trace.length

/-- The call `send(controlSocket, buf, buf.length(), 0)`. -/
def sysSendCtrl (env : Env) (buf : Str) (w : World) : Int × World :=
  let ret := env.ctrlSend w.nCtrlSend buf
  (ret, { w with trace := w.trace ++ [.send env.controlSocket buf ret],
                 nCtrlSend := w.nCtrlSend + 1 })

/-- The call `recv(controlSocket, buffer, len, 0)`: return value and bytes stored. -/
def sysRecvCtrl (env : Env) (len : Nat) (w : World) : (Int × Str) × World :=
  match env.ctrlRecv w.nCtrlRecv with
  | none =>
    ((-1, []), { w with trace := w.trace ++ [.recv env.controlSocket len (-1) []],
                        nCtrlRecv := w.nCtrlRecv + 1 })
  | some bytes =>
    let got := bytes.take len
    (((got.length : Int), got),
      { w with trace := w.trace ++ [.recv env.controlSocket len got.length got],
               nCtrlRecv := w.nCtrlRecv + 1 })

/-- The call `socket(AF_INET, SOCK_STREAM, 0)`. -/
def sysSocket (env : Env) (w : World) : Int × World :=
  let ret := env.socketRet w.nSocket
  (ret, { w with trace := w.trace ++ [.socket ret], nSocket := w.nSocket + 1 })

/-- The call `connect(fd, addr)`, `addr` built from the IP string and the port. -/
def sysConnect (env : Env) (fd : Int) (ip : Str) (port : Int) (w : World) : Int × World :=
  let ret := env.connectRet w.nConnect
  (ret, { w with trace := w.trace ++ [.connect fd ip port ret], nConnect := w.nConnect + 1 })

/-- The call `send(dataSocket, buf, buf.length(), 0)` on a data socket. -/
def sysSendData (env : Env) (fd : Int) (buf : Str) (w : World) : Int × World :=
  let ret := env.dataSend w.nDataSend buf
  (ret, { w with trace := w.trace ++ [.send fd buf ret], nDataSend := w.nDataSend + 1 })

/-- The call `recv(dataSocket, buffer, len, 0)` on a data socket. -/
def sysRecvData (env : Env) (fd : Int) (len : Nat) (w : World) : (Int × Str) × World :=
  match env.dataRecv w.nDataRecv with
  | none =>
    ((-1, []), { w with trace := w.trace ++ [.recv fd len (-1) []],
                        nDataRecv := w.nDataRecv + 1 })
  | some bytes =>
    let got := bytes.take len
    (((got.length : Int), got),
      { w with trace := w.trace ++ [.recv fd len got.length got],
               nDataRecv := w.nDataRecv + 1 })

/-- The call `close(fd)`. -/
def sysClose (fd : Int) (w : World) : World :=
  { w with trace := w.trace ++ [.close fd] }

/-- Writing to `std::cout`. -/
def putOut (s : Str) (w : World) : World := { w with cout := w.cout ++ s }

/-- Writing to `std::cerr`. -/
def putErr (s : Str) (w : World) : World := { w with cerr := w.cerr ++ s }

/-- The constructor `std::string(const char*)`: up to the first NUL. -/
def c_str (buffer : Str) : Str := buffer.takeWhile (fun c => c ≠ Char.ofNat 0)

/-! ## Control channel -/

/-- `FTPClient::createSocket`. -/
def createSocket (env : Env) : M Int := fun w =>
  let r := sysSocket env w
  if r.1 < 0 then
    (.throw (.runtime_error ("Failed to create socket: ".toList ++ errnoText env r.2)), r.2)
  else (.ok r.1, r.2)

/-- `FTPClient::sendCommand`. -/
def sendCommand (env : Env) (cmd : Str) : M Unit := fun w =>
  let message := cmd ++ "\r\n".toList
  let r := sysSendCtrl env message w
  if r.1 < 0 then
    (.throw (.runtime_error ("Failed to send command: ".toList ++ errnoText env r.2)), r.2)
  else (.ok (), r.2)

/-- `FTPClient::readResponse`. -/
def readResponse (env : Env) : M Str := fun w =>
  let r := sysRecvCtrl env (BUFFER_SIZE - 1) w
  if r.1.1 < 0 then
    (.throw (.runtime_error ("Failed to read response: ".toList ++ errnoText env r.2)), r.2)
  else (.ok (c_str r.1.2), r.2)

/-- A call of `checkResponseCode` inside the client: the flag, with the
diagnostic written to `std::cerr`. -/
def checkCode (response expectedCode : Str) : M Bool := fun w =>
  let r := checkResponseCode response expectedCode
  (.ok r.1, putErr r.2 w)

/-- The condition `!checkResponseCode(r, a) && !checkResponseCode(r, b)`,
evaluated left to right with short circuit; the flag is its value. -/
def neitherCode (response a b : Str) : M Bool :=
  andThen (checkCode response a) fun ca =>
    if !ca then andThen (checkCode response b) fun cb => liftPure (.ok (!cb))
    else liftPure (.ok false)

/-! ## Passive-mode negotiation -/

/-- `FTPClient::enterPassiveMode`. -/
def enterPassiveMode (env : Env) : M Int :=
  andThen (sendCommand env "PASV".toList) fun _ =>
  andThen (readResponse env) fun response =>
  andThen (checkCode response "227".toList) fun is227 =>
  if !is227 then
    liftPure (.throw (.runtime_error ("Failed to enter passive mode: ".toList ++ response)))
  else
    andThen (liftPure (decodePasv response)) fun endpoint =>
    andThen (createSocket env) fun dataSocket => fun w =>
      let r := sysConnect env dataSocket endpoint.1 endpoint.2 w
      if r.1 < 0 then
        (.throw (.runtime_error
          ("Failed to connect to data socket: ".toList ++ errnoText env r.2)), r.2)
      else (.ok dataSocket, r.2)

/-! ## Transfers -/

/-- A `std::ifstream` opened on a file: the bytes not yet read and the fail bit. -/
structure IFStream where
  rest : Str
  fail : Bool
  deriving DecidableEq, Repr

/-- The call `file.read(buffer, n)`: the bytes stored (their number is
`gcount()`) and the stream after it; reading fewer than `n` bytes sets the
fail bit, and a failed stream reads nothing. -/
def IFStream.read (f : IFStream) (n : Nat) : Str × IFStream :=
  if f.fail then ([], f)
  else
    let got := f.rest.take n
    (got, { rest := f.rest.drop n, fail := decide (got.length < n) })

/-- The inner loop of `uploadFile` (lines 268-274): sends `buffer` (the
`bytesToSend` bytes just read) from offset `bytesSent` on. -/
def sendChunk (env : Env) (dataSocket : Int) (buffer : Str) : Nat → Int → M Unit
  | 0, _ => fun w => (.diverge, w)
  | fuel + 1, bytesSent => fun w =>
    if bytesSent < (buffer.length : Int) then
      let r := sysSendData env dataSocket (buffer.drop bytesSent.toNat) w
      if r.1 < 0 then
        (.throw (.runtime_error ("Failed to send file data: ".toList ++ errnoText env r.2)), r.2)
      else
        match intResult (bytesSent + r.1) with
        | .ok total => sendChunk env dataSocket buffer fuel total r.2
        | _ => (.undefined, r.2)
    else (.ok (), w)

/-- The streaming loop of `uploadFile` (lines 262-275). -/
def uploadLoop (env : Env) (dataSocket : Int) : Nat → IFStream → M Unit
  | 0, _ => fun w => (.diverge, w)
  | fuel + 1, file => fun w =>
    let r := file.read BUFFER_SIZE
    if !r.2.fail || decide (r.1.length > 0) then
      andThen (sendChunk env dataSocket r.1 fuel 0)
        (fun _ => uploadLoop env dataSocket fuel r.2) w
    else (.ok (), w)

/-- `FTPClient::uploadFile`; `fuel` bounds the iterations of its loops. -/
def uploadFile (env : Env) (fuel : Nat) (localPath remotePath : Str) : M Unit := fun w =>
  let driveFolder := "drive".toList
  if !env.fsExists driveFolder then
    (.throw (.runtime_error "Directory \x27drive\x27 does not exist.".toList), w)
  else
    let fullLocalPath := driveFolder ++ "/".toList ++ localPath
    if !env.fsExists fullLocalPath || env.fsIsDirectory fullLocalPath then
      (.throw (.runtime_error ("File not found or invalid path: ".toList ++ fullLocalPath)), w)
    else
      match env.openRead fullLocalPath with
      | none => (.throw (.runtime_error ("Failed to open file: ".toList ++ fullLocalPath)), w)
      | some content =>
        (andThen (enterPassiveMode env) fun dataSocket =>
         andThen (sendCommand env ("STOR ".toList ++ remotePath)) fun _ =>
         andThen (readResponse env) fun response =>
         andThen (neitherCode response "150".toList "125".toList) fun bad =>
         if bad then
           liftPure (.throw (.runtime_error
             ("Failed to initiate file upload: ".toList ++ response)))
         else
           andThen (effect (putOut ("Starting file upload: ".toList ++
             fullLocalPath ++ " to ".toList ++ remotePath ++ "\n".toList))) fun _ =>
           andThen (uploadLoop env dataSocket fuel { rest := content, fail := false }) fun _ =>
           andThen (effect (sysClose dataSocket)) fun _ =>
           andThen (readResponse env) fun final =>
           andThen (neitherCode final "226".toList "250".toList) fun failed =>
           if failed then
             liftPure (.throw (.runtime_error ("File upload failed: ".toList ++ final)))
           else effect (putOut ("File uploaded successfully: ".toList ++
             remotePath ++ "\n".toList))) w

/-- The content of the file at `path`, if it was written. -/
def fileGet (files : List (Str × Str)) (path : Str) : Option Str := files.lookup path

/-- Opening `std::ofstream file(path, std::ios::binary)`: the file is created empty. -/
def fileCreate (path : Str) (w : World) : World :=
  { w with files := (path, []) :: w.files }

/-- The call `file.write(buffer, n)` on the stream opened at `path`: appends. -/
def fileAppend (path data : Str) (w : World) : World :=
  { w with files := (path, ((fileGet w.files path).getD []) ++ data) :: w.files }

/-- The loops `while ((bytesRead = recv(dataSocket, buffer, BUFFER_SIZE, 0)) > 0)`
of `downloadFile` (lines 331-333) and `listFiles` (lines 373-375); `sink` is
the loop body, which consumes the bytes received. -/
def recvLoop (env : Env) (dataSocket : Int) (sink : Str → World → World) : Nat → M Unit
  | 0 => fun w => (.diverge, w)
  | fuel + 1 => fun w =>
    let r := sysRecvData env dataSocket BUFFER_SIZE w
    if r.1.1 > 0 then recvLoop env dataSocket sink fuel (sink r.1.2 r.2)
    else (.ok (), r.2)

/-- The call `std::filesystem::create_directory(path)`. -/
def create_directory (path : Str) (w : World) : World :=
  { w with dirs := path :: w.dirs }

/-- Lines 305-310 of `downloadFile`: the storage root is created when it
is absent. -/
def downloadStart (env : Env) (w : World) : World :=
  let driveFolder := "drive".toList
  if !env.fsExists driveFolder then create_directory driveFolder w else w

/-- `FTPClient::downloadFile`; `fuel` bounds the iterations of its loop. -/
def downloadFile (env : Env) (fuel : Nat) (remotePath localPath : Str) : M Unit := fun w =>
  let driveFolder := "drive".toList
  let w0 := downloadStart env w
  let fullLocalPath := driveFolder ++ "/".toList ++ localPath
  (andThen (enterPassiveMode env) fun dataSocket =>
   andThen (sendCommand env ("RETR ".toList ++ remotePath)) fun _ =>
   andThen (readResponse env) fun response =>
   andThen (effect (putOut response)) fun _ =>
   if !env.openWrite fullLocalPath then
     liftPure (.throw (.runtime_error ("Failed to create file: ".toList ++ fullLocalPath)))
   else
     andThen (effect (fileCreate fullLocalPath)) fun _ =>
     andThen (recvLoop env dataSocket (fileAppend fullLocalPath) fuel) fun _ =>
     andThen (effect (sysClose dataSocket)) fun _ =>
     andThen (readResponse env) fun final =>
     andThen (checkCode final "226".toList) fun is226 =>
     if !is226 then
       liftPure (.throw (.runtime_error ("Failed to download file: ".toList ++ final)))
     else effect (putOut ("File downloaded successfully: ".toList ++
       remotePath ++ "\n".toList))) w0

/-- `FTPClient::listFiles`; `fuel` bounds the iterations of its loop. -/
def listFiles (env : Env) (fuel : Nat) : M Unit :=
  andThen (enterPassiveMode env) fun dataSocket =>
  andThen (sendCommand env "LIST".toList) fun _ =>
  andThen (readResponse env) fun response =>
  andThen (effect (putOut response)) fun _ =>
  andThen (recvLoop env dataSocket putOut fuel) fun _ =>
  andThen (effect (sysClose dataSocket)) fun _ =>
  andThen (readResponse env) fun final => effect (putOut final)

/-! ## The dispatchers: `ServerController.cpp` and `main.cpp` -/

/-- `FTPClient::logout`. -/
def logout (env : Env) : M Unit :=
  andThen (sendCommand env "QUIT".toList) fun _ =>
  andThen (readResponse env) fun response => effect (putOut response)

/-- The text `ex.what()` of an exception. -/
def Exn.what : Exn → Str
  | .runtime_error text => text
  | .invalid_argument text => text
  | .out_of_range text => text

/-- A `try` block with the handler `catch (const std::exception& ex)` of
`ServerController`: the handler writes `label`, `ex.what()` and a line end to
`std::cerr`, and the function goes on. -/
def tryCatch (m : M Unit) (label : Str) : M Unit := fun w =>
  match m w with
  | (.throw e, w1) => (.ok (), putErr (label ++ e.what ++ "\n".toList) w1)
  | (.ok a, w1) => (.ok a, w1)
  | (.undefined, w1) => (.undefined, w1)
  | (.diverge, w1) => (.diverge, w1)

/-- The string `unpermitted` of `downloadFileValid`: the characters
`/ \ : * ? " < > |`. -/
def unpermitted : Str :=
  ['/', Char.ofNat 92, ':', '*', '?', Char.ofNat 34, '<', '>', '|']

/-- The loop `for (char c : unpermitted)` of `downloadFileValid`, over the
characters still to test: the flag returned and the text written to `std::cerr`. -/
def checkUnpermitted (remotePath : Str) : Str → Bool × Str
  | [] => (true, [])
  | c :: cs =>
    if find remotePath c 0 ≠ npos then
      (false, "Invalid character in remote path: ".toList ++ [c] ++ "\n".toList)
    else checkUnpermitted remotePath cs

/-- `ServerController::downloadFileValid`: the flag returned and the text
written to `std::cerr`. -/
def ServerController.downloadFileValid (remotePath : Str) : Bool × Str :=
  if remotePath.isEmpty then (false, "Invalid path: path is empty\n".toList)
  else checkUnpermitted remotePath unpermitted

/-- `ServerController::downloadFile`. -/
def ServerController.downloadFile (env : Env) (fuel : Nat) (remotePath localPath : Str) :
    M Unit := fun w =>
  let valid := ServerController.downloadFileValid remotePath
  if valid.1 == false then (.ok (), putErr "Invalid path\n".toList (putErr valid.2 w))
  else
    tryCatch (FTPClient.downloadFile env fuel remotePath localPath)
      "Failed to download file: ".toList (putErr valid.2 w)

/-- The loop `while (start < str.length() && std::isspace(str[start])) ++start`
of `getTokens` (lines 11-13).  The cursor `start` is kept as the part of `str`
from `start` on. -/
def skipSpaces : Str → Str
  | [] => []
  | c :: cs => if isspace c then skipSpaces cs else c :: cs

/-- The loop `while (end < str.length() && !std::isspace(str[end])) ++end` of
`getTokens` (lines 15-18): the characters from `start` up to `end`, and the
part of `str` from `end` on. -/
def scanToken : Str → Str × Str
  | [] => ([], [])
  | c :: cs =>
    if !isspace c then (c :: (scanToken cs).1, (scanToken cs).2) else ([], c :: cs)

/-- The outer loop `while (start < str.length())` of `getTokens` (lines 10-24),
from the part of `str` not yet read and the tokens collected so far.  The first
argument bounds the number of iterations. -/
def tokensLoop : Nat → Str → List Str → Outcome (List Str)
  | 0, _, _ => .diverge
  | fuel + 1, rest, tokens =>
    if rest ≠ [] then
      let scanned := scanToken (skipSpaces rest)
      let tokens1 := if scanned.1 ≠ [] then tokens ++ [scanned.1] else tokens
      tokensLoop fuel scanned.2 tokens1
    else .ok tokens

/-- The function `getTokens` of `main.cpp`. -/
def getTokens (str : Str) : Outcome (List Str) := tokensLoop (str.length + 1) str []

/-- The read `tokens[i]` of a `std::vector<std::string>`: undefined behaviour
past the end. -/
def tokenAt (tokens : List Str) (i : Nat) : Outcome Str :=
  match tokens.get? i with
  | some t => .ok t
  | none => .undefined

/-- What one round of the loop of `main` goes on to do. -/
inductive Call where
  | skip
  | listFiles
  | logout
  | uploadFile (localPath remotePath : Str)
  | downloadFile (remotePath localPath : Str)
  | invalid
  deriving DecidableEq, Repr

/-- Lines 57-74 of `main`: from the command line read by `getline` to the
call the branch makes. -/
def dispatch (command : Str) : Outcome Call :=
  if command.isEmpty then .ok .skip
  else
    match getTokens command with
    | .ok tokens =>
      match tokenAt tokens 0 with
      | .ok t0 =>
        if t0 = "list".toList then .ok .listFiles
        else if t0 = "exit".toList then .ok .logout
        else if t0 = "stor".toList ∧ tokens.length = 3 then
          match tokenAt tokens 1, tokenAt tokens 2 with
          | .ok t1, .ok t2 => .ok (.uploadFile t1 t2)
          | _, _ => .undefined
        else if t0 = "retr".toList ∧ tokens.length = 3 then
          match tokenAt tokens 1, tokenAt tokens 2 with
          | .ok t1, .ok t2 => .ok (.downloadFile t1 t2)
          | _, _ => .undefined
        else .ok .invalid
      | .throw e => .throw e
      | .undefined => .undefined
      | .diverge => .diverge
    | .throw e => .throw e
    | .undefined => .undefined
    | .diverge => .diverge

/-- One round of the loop of `main` on the command line `command`: the
value says whether the loop goes on (`exit` ends it). -/
def replStep (env : Env) (fuel : Nat) (command : Str) : M Bool :=
  match dispatch command with
  | .ok .skip => liftPure (.ok true)
  | .ok .listFiles => andThen (listFiles env fuel) fun _ => liftPure (.ok true)
  | .ok .logout => andThen (logout env) fun _ => liftPure (.ok false)
  | .ok (.uploadFile localPath remotePath) =>
    andThen (uploadFile env fuel localPath remotePath) fun _ => liftPure (.ok true)
  | .ok (.downloadFile remotePath localPath) =>
    andThen (FTPClient.downloadFile env fuel remotePath localPath) fun _ => liftPure (.ok true)
  | .ok .invalid =>
    andThen (effect (putOut "Invalid command or incorrect arguments.\n".toList)) fun _ =>
      liftPure (.ok true)
  | .throw e => liftPure (.throw e)
  | .undefined => liftPure .undefined
  | .diverge => liftPure .diverge

/-! ## Reading the trace -/

/-- The bytes a socket accepted in a `send`: the first `ret` of those offered. -/
def accepted : Event → Str
  | .send _ buf ret => buf.take ret.toNat
  | _ => []

/-- All bytes accepted by the `send` calls of a trace, in call order. -/
def acceptedBytes (t : List Event) : Str := (t.map accepted).flatten

/-- The data connections open after a trace: a successful `connect` opens
one, `close` ends it. -/
def openData : List Event → List Int → List Int
  | [], acc => acc
  | .connect fd _ _ ret :: t, acc => openData t (if ret < 0 then acc else acc ++ [fd])
  | .close fd :: t, acc => openData t (acc.erase fd)
  | _ :: t, acc => openData t acc

/-! ## Vocabulary of the statements -/

/-- What `!checkResponseCode(r, a) && !checkResponseCode(r, b)` writes to `std::cerr`. -/
def neitherDiag (response a b : Str) : Str :=
  (checkResponseCode response a).2 ++
    (if (checkResponseCode response a).1 then [] else (checkResponseCode response b).2)

/-- The text `a,b,c,d,p1,p2` of a PASV reply, the numbers in decimal. -/
def pasvTuple (a b c d p1 p2 : Nat) : Str :=
  Nat.toDigits 10 a ++ ',' :: (Nat.toDigits 10 b ++ ',' :: (Nat.toDigits 10 c ++ ',' ::
    (Nat.toDigits 10 d ++ ',' :: (Nat.toDigits 10 p1 ++ ',' :: Nat.toDigits 10 p2))))

/-- The IP string `a.b.c.d`, the numbers in decimal. -/
def dottedQuad (a b c d : Nat) : Str :=
  Nat.toDigits 10 a ++ '.' :: (Nat.toDigits 10 b ++ '.' :: (Nat.toDigits 10 c ++ '.' ::
    Nat.toDigits 10 d))

/-- The `send` calls `evs` stream `remaining` down to `final`: every call
is on `fd` and offers a non-empty run of at most `BUFFER_SIZE` bytes that starts
at the first byte not yet accepted, and the socket takes at least one and at
most all of the bytes offered. -/
def streamsTo (fd : Int) : List Event → Str → Str → Prop
  | [], remaining, final => remaining = final
  | .send fd1 buf ret :: t, remaining, final =>
    fd1 = fd ∧ buf ≠ [] ∧ buf <+: remaining ∧ buf.length ≤ BUFFER_SIZE ∧
      1 ≤ ret ∧ ret ≤ (buf.length : Int) ∧ streamsTo fd t (remaining.drop ret.toNat) final
  | _ :: _, _, _ => False

/-- The state after the data-socket `send` calls `evs`. -/
def afterSends (w : World) (evs : List Event) : World :=
  { w with trace := w.trace ++ evs, nDataSend := w.nDataSend + evs.length }

/-- The state after the control-socket `send` of `buf`. -/
def afterCtrlSend (env : Env) (buf : Str) (w : World) : World := (sysSendCtrl env buf w).2

/-- The state after a control-socket `recv` that delivered `raw`. -/
def afterCtrlRecv (env : Env) (raw : Str) (w : World) : World :=
  { w with trace := w.trace ++ [.recv env.controlSocket (BUFFER_SIZE - 1)
             (raw.take (BUFFER_SIZE - 1)).length (raw.take (BUFFER_SIZE - 1))],
           nCtrlRecv := w.nCtrlRecv + 1 }

/-- The bytes delivered by `n` consecutive `recv` calls on the data
connection, the first being call number `k`. -/
def received (env : Env) : Nat → Nat → Str
  | _, 0 => []
  | k, n + 1 => ((env.dataRecv k).getD []).take BUFFER_SIZE ++ received env (k + 1) n

/-- The `recv` call number `k` on the data connection, as it shows in the trace. -/
def dataRecvEvent (env : Env) (fd : Int) (k : Nat) : Event :=
  match env.dataRecv k with
  | none => .recv fd BUFFER_SIZE (-1) []
  | some bytes => .recv fd BUFFER_SIZE (bytes.take BUFFER_SIZE).length (bytes.take BUFFER_SIZE)

/-- The state after one `recv` on the data connection. -/
def afterDataRecv (env : Env) (fd : Int) (w : World) : World :=
  { w with trace := w.trace ++ [dataRecvEvent env fd w.nDataRecv],
           nDataRecv := w.nDataRecv + 1 }

/-- Whether a relative path, read component by component, steps above the
directory it starts in (a `..` with nothing left to undo). -/
def leavesRootFrom : List Str → Nat → Bool
  | [], _ => false
  | c :: cs, depth =>
    if c = "..".toList then
      match depth with
      | 0 => true
      | d + 1 => leavesRootFrom cs d
    else if c = [] ∨ c = ".".toList then leavesRootFrom cs depth
    else leavesRootFrom cs (depth + 1)

/-- Whether `localPath`, taken relative to the storage root, names a location
outside it. -/
def leavesRoot (localPath : Str) : Bool := leavesRootFrom (localPath.splitOn '/') 0

/-- The largest number of data connections open at once along a trace,
starting with the connections `acc` open and `peak` as the largest so far. -/
def peakOpen : List Event → List Int → Nat → Nat
  | [], _, peak => peak
  | .connect fd _ _ ret :: t, acc, peak =>
    if ret < 0 then peakOpen t acc peak
    else peakOpen t (acc ++ [fd]) (max peak (acc.length + 1))
  | .close fd :: t, acc, peak => peakOpen t (acc.erase fd) peak
  | _ :: t, acc, peak => peakOpen t acc peak

/-- A server that answers the control channel with `responses` in turn (then
fails), accepts every command whole, accepts at most `accept` bytes per `send`
on a data connection, delivers `incoming` chunk by chunk on it (then
end-of-stream), and a file system that holds the directory `drive` and `files`. -/
def scriptEnv (responses : List Str) (accept : Nat) (incoming : List Str)
    (files : List (Str × Str)) : Env :=
  { controlSocket := 3
    ctrlSend := fun _ buf => (buf.length : Int)
    ctrlRecv := fun k => responses.get? k
    socketRet := fun k => ((4 + k : Nat) : Int)
    connectRet := fun _ => 0
    dataSend := fun _ buf => ((min accept buf.length : Nat) : Int)
    dataRecv := fun k => some ((incoming.get? k).getD [])
    strerror := fun _ => "Connection reset by peer".toList
    fsExists := fun path => path == "drive".toList || (files.lookup path).isSome
    fsIsDirectory := fun path => path == "drive".toList
    openRead := fun path => files.lookup path
    openWrite := fun _ => true }

/-- The same server, whose control socket takes only two bytes of each command. -/
def shortWriteEnv (responses : List Str) : Env :=
  { scriptEnv responses 3 [] [] with ctrlSend := fun _ _ => 2 }

/-- A computation only adds calls to the trace. -/
def Grows {α : Type} (m : M α) : Prop := ∀ w, w.trace <+: (m w).2.trace

/-- A server that refuses the first STOR with `550` and then serves a listing,
over a file system that holds `drive/local.txt`. -/
def rejectingEnv : Env :=
  scriptEnv ["227 Entering Passive Mode (127,0,0,1,19,137)\r\n".toList,
      "550 Permission denied\r\n".toList,
      "227 Entering Passive Mode (127,0,0,1,19,138)\r\n".toList,
      "150 Here comes the directory listing\r\n".toList,
      "226 Directory send OK\r\n".toList]
    3 ["local.txt\r\n".toList] [("drive/local.txt".toList, "hello world".toList)]

/-- A well-formed reply to PASV. -/
def pasvReply : Str := "227 Entering Passive Mode (127,0,0,1,19,137)\r\n".toList

/-! ## Lemmas on the string functions -/

theorem indexFrom_append_of_not_mem (c : Char) (xs ys : Str) (i : Nat) (h : c ∉ xs) :
    indexFrom c (xs ++ c :: ys) i = some (i + xs.length) := by
  induction xs generalizing i with
  | nil => simp [indexFrom]
  | cons x xs ih =>
    have hx : x ≠ c := fun e => h (by simp [e])
    have hxs : c ∉ xs := fun e => h (by simp [e])
    simp [indexFrom, hx, ih (i + 1) hxs]
    omega

theorem indexFrom_none_of_not_mem (c : Char) (xs : Str) (i : Nat) (h : c ∉ xs) :
    indexFrom c xs i = none := by
  induction xs generalizing i with
  | nil => simp [indexFrom]
  | cons x xs ih =>
    have hx : x ≠ c := fun e => h (by simp [e])
    have hxs : c ∉ xs := fun e => h (by simp [e])
    simp [indexFrom, hx, ih (i + 1) hxs]

theorem find_zero_append (c : Char) (xs ys : Str) (h : c ∉ xs) :
    find (xs ++ c :: ys) c 0 = xs.length := by
  simp [find, indexFrom_append_of_not_mem c xs ys 0 h]

theorem find_zero_of_not_mem (c : Char) (xs : Str) (h : c ∉ xs) :
    find xs c 0 = npos := by
  simp [find, indexFrom_none_of_not_mem c xs 0 h]

theorem find_from_append (c : Char) (xs ys zs : Str) (h : c ∉ ys) :
    find (xs ++ (ys ++ c :: zs)) c xs.length = xs.length + ys.length := by
  simp [find, indexFrom_append_of_not_mem c ys zs xs.length h]

/-! ## Lemmas on decimal numerals -/

theorem digitsValue_append (xs : Str) (y : Char) :
    digitsValue (xs ++ [y]) = digitsValue xs * 10 + (y.toNat - 48) := by
  simp [digitsValue, List.foldl_append]

theorem digitChar_isDigit (d : Nat) (h : d < 10) :
    (Nat.digitChar d).isDigit = true ∧ (Nat.digitChar d).toNat - 48 = d := by
  interval_cases d <;> decide

theorem toDigitsCore_decimal (fuel n : Nat) (ds : Str) (h : n < fuel) :
    ∃ front : Str, Nat.toDigitsCore 10 fuel n ds = front ++ ds ∧ front ≠ [] ∧
      (∀ c ∈ front, c.isDigit = true) ∧ digitsValue front = n := by
  induction fuel generalizing n ds with
  | zero => omega
  | succ fuel ih =>
    have hd := digitChar_isDigit (n % 10) (Nat.mod_lt _ (by decide))
    by_cases h0 : n / 10 = 0
    · refine ⟨[Nat.digitChar (n % 10)], ?_, by simp, ?_, ?_⟩
      · simp [Nat.toDigitsCore, h0]
      · intro c hc
        simp at hc
        rw [hc]; exact hd.1
      · have hn : n % 10 = n := Nat.mod_eq_of_lt (by omega)
        simp only [digitsValue, List.foldl_cons, List.foldl_nil, Nat.zero_mul, Nat.zero_add]
        rw [hd.2, hn]
    · have hlt : n / 10 < fuel := by omega
      obtain ⟨front, h1, _, h3, h4⟩ := ih (n / 10) (Nat.digitChar (n % 10) :: ds) hlt
      refine ⟨front ++ [Nat.digitChar (n % 10)], ?_, by simp, ?_, ?_⟩
      · simp [Nat.toDigitsCore, h0, h1]
      · intro c hc
        rcases List.mem_append.1 hc with hc | hc
        · exact h3 c hc
        · simp at hc
          rw [hc]; exact hd.1
      · rw [digitsValue_append, h4, hd.2]
        omega

/-- A decimal numeral as `std::to_string` prints it is made of digits only
and has the value it was printed from. -/
theorem toDigits_decimal (n : Nat) :
    Nat.toDigits 10 n ≠ [] ∧ (∀ c ∈ Nat.toDigits 10 n, c.isDigit = true) ∧
      digitsValue (Nat.toDigits 10 n) = n := by
  obtain ⟨front, h1, h2, h3, h4⟩ := toDigitsCore_decimal (n + 1) n [] (by omega)
  have : Nat.toDigits 10 n = front := by simp [Nat.toDigits, h1]
  rw [this]
  exact ⟨h2, h3, h4⟩

theorem not_mem_of_all_digits (c : Char) (hc : c.isDigit = false) (ds : Str)
    (h : ∀ x ∈ ds, x.isDigit = true) : c ∉ ds := by
  intro hmem
  have := h c hmem
  simp [hc] at this

theorem dropWhile_isspace_digits (ds : Str) (h : ∀ x ∈ ds, x.isDigit = true) :
    ds.dropWhile isspace = ds := by
  cases ds with
  | nil => rfl
  | cons x xs =>
    have hx : x.isDigit = true := h x (by simp)
    have : isspace x = false := by
      by_contra hsp
      have hsp1 : isspace x = true := by simpa using hsp
      simp only [isspace, Bool.or_eq_true, decide_eq_true_eq] at hsp1
      rcases hsp1 with ((((h1 | h1) | h1) | h1) | h1) | h1 <;>
        (rw [h1] at hx; exact absurd hx (by decide))
    simp [List.dropWhile, this]

theorem stoi_toDigits (n : Nat) (h : n < 2147483648) :
    stoi (Nat.toDigits 10 n) = .ok (n : Int) := by
  obtain ⟨hne, hdig, hval⟩ := toDigits_decimal n
  have hdrop := dropWhile_isspace_digits _ hdig
  have htake : (Nat.toDigits 10 n).takeWhile Char.isDigit = Nat.toDigits 10 n :=
    List.takeWhile_eq_self_iff.2 hdig
  obtain ⟨x, xs, hx⟩ := List.exists_cons_of_ne_nil hne
  have hxd : x.isDigit = true := hdig x (by simp [hx])
  have hminus : x ≠ '-' := fun e => absurd (e ▸ hxd) (by decide)
  have hplus : x ≠ '+' := fun e => absurd (e ▸ hxd) (by decide)
  have hsigned : (match Nat.toDigits 10 n with
      | '-' :: t => (true, t)
      | '+' :: t => (false, t)
      | _ => (false, Nat.toDigits 10 n)) = (false, Nat.toDigits 10 n) := by
    rw [hx]
    split
    · rename_i heq; simp at heq; exact absurd heq.1 hminus
    · rename_i heq; simp at heq; exact absurd heq.1 hplus
    · rfl
  unfold stoi
  simp only [hdrop, hsigned, htake, hval]
  have hemp : (Nat.toDigits 10 n).isEmpty = false := by simp [hx]
  simp [hemp]
  omega

/-! ## Lemmas on the PASV decoder -/

theorem size_t_of_lt (n : Nat) (h : n < 2 ^ 64) : size_t (n : Int) = n := by
  unfold size_t
  have h1 : ((n : Int)) % 2 ^ 64 = n := Int.emod_eq_of_lt (by omega) (by exact_mod_cast h)
  rw [h1]
  simp

theorem splitLoop_field (fuel : Nat) (f rest : Str) (vs : List Int) (v : Int)
    (hcomma : ',' ∉ f) (hlen : f.length < npos) (hv : stoi f = .ok v) :
    splitLoop (fuel + 1) (f ++ ',' :: rest) vs = splitLoop fuel rest (vs ++ [v]) := by
  have hfind := find_zero_append ',' f rest hcomma
  have hne : f.length ≠ npos := by omega
  simp [splitLoop, hfind, hne, substr, erase, hv]

theorem splitLoop_last (fuel : Nat) (f : Str) (vs : List Int) (hcomma : ',' ∉ f) :
    splitLoop (fuel + 1) f vs = .ok (f, vs) := by
  simp [splitLoop, find_zero_of_not_mem ',' f hcomma]

theorem to_string_natCast (n : Nat) : to_string (n : Int) = Nat.toDigits 10 n := by
  simp [to_string]

theorem toDigits_not_mem (c : Char) (hc : c.isDigit = false) (n : Nat) :
    c ∉ Nat.toDigits 10 n :=
  not_mem_of_all_digits c hc _ (toDigits_decimal n).2.1

theorem pasvTuple_no_paren (a b c d p1 p2 : Nat) : ')' ∉ pasvTuple a b c d p1 p2 := by
  have h := toDigits_not_mem ')' (by decide)
  simp [pasvTuple, h]

theorem splitLoop_pasvTuple (k : Nat) (a b c d p1 p2 : Nat)
    (hlen : (pasvTuple a b c d p1 p2).length < npos)
    (ha : a < 2147483648) (hb : b < 2147483648) (hc : c < 2147483648)
    (hd : d < 2147483648) (hp1 : p1 < 2147483648) :
    splitLoop (k + 6) (pasvTuple a b c d p1 p2) [] =
      .ok (Nat.toDigits 10 p2, [(a : Int), (b : Int), (c : Int), (d : Int), (p1 : Int)]) := by
  have hcomma := toDigits_not_mem ',' (by decide)
  simp only [pasvTuple, List.length_append, List.length_cons] at hlen
  unfold pasvTuple
  rw [splitLoop_field (k + 5) _ _ _ _ (hcomma a) (by omega) (stoi_toDigits a ha)]
  rw [splitLoop_field (k + 4) _ _ _ _ (hcomma b) (by omega) (stoi_toDigits b hb)]
  rw [splitLoop_field (k + 3) _ _ _ _ (hcomma c) (by omega) (stoi_toDigits c hc)]
  rw [splitLoop_field (k + 2) _ _ _ _ (hcomma d) (by omega) (stoi_toDigits d hd)]
  rw [splitLoop_field (k + 1) _ _ _ _ (hcomma p1) (by omega) (stoi_toDigits p1 hp1)]
  rw [splitLoop_last k _ _ (hcomma p2)]
  rfl

theorem pasvTuple_length_ge (a b c d p1 p2 : Nat) :
    11 ≤ (pasvTuple a b c d p1 p2).length := by
  have h : ∀ n, 1 ≤ (Nat.toDigits 10 n).length := fun n =>
    List.length_pos.2 (toDigits_decimal n).1
  have := h a; have := h b; have := h c; have := h d; have := h p1; have := h p2
  simp only [pasvTuple, List.length_append, List.length_cons]
  omega

/-- The decoder on a well-formed reply: text without `(`, then the tuple in
parentheses, then any text. -/
theorem decodePasv_wellFormed (front back : Str) (a b c d p1 p2 : Nat)
    (hfront : '(' ∉ front)
    (hlen : (front ++ '(' :: (pasvTuple a b c d p1 p2 ++ ')' :: back)).length < 2 ^ 64)
    (ha : a < 2147483648) (hb : b < 2147483648) (hc : c < 2147483648)
    (hd : d < 2147483648) (hp1 : p1 < 2147483648) (hp2 : p2 < 2147483648)
    (hport : p1 * 256 + p2 < 2147483648) :
    decodePasv (front ++ '(' :: (pasvTuple a b c d p1 p2 ++ ')' :: back)) =
      .ok (dottedQuad a b c d, ((p1 * 256 + p2 : Nat) : Int)) := by
  have hstart := find_zero_append '(' front (pasvTuple a b c d p1 p2 ++ ')' :: back) hfront
  have hparen : ')' ∉ '(' :: pasvTuple a b c d p1 p2 := by
    have := pasvTuple_no_paren a b c d p1 p2
    simp [this]
  have hstop := find_from_append ')' front ('(' :: pasvTuple a b c d p1 p2) back hparen
  simp only [List.cons_append] at hstop
  simp only [List.length_append, List.length_cons] at hlen
  have hge := pasvTuple_length_ge a b c d p1 p2
  have hs1 : size_t ((front.length : Int) + 1) = front.length + 1 := by
    have := size_t_of_lt (front.length + 1) (by omega)
    simpa using this
  simp only [List.length_cons] at hstop
  have hs2 : size_t (((front.length + ((pasvTuple a b c d p1 p2).length + 1) : Nat) : Int)
      - front.length - 1) = (pasvTuple a b c d p1 p2).length := by
    have e : (((front.length + ((pasvTuple a b c d p1 p2).length + 1) : Nat) : Int)
        - front.length - 1) = (((pasvTuple a b c d p1 p2).length : Nat) : Int) := by
      push_cast
      ring
    rw [e]
    exact size_t_of_lt _ (by omega)
  obtain ⟨k, hk⟩ : ∃ k, (pasvTuple a b c d p1 p2).length + 1 = k + 6 :=
    ⟨(pasvTuple a b c d p1 p2).length - 5, by omega⟩
  have hdrop : List.drop (front.length + 1)
      (front ++ '(' :: (pasvTuple a b c d p1 p2 ++ ')' :: back)) =
      pasvTuple a b c d p1 p2 ++ ')' :: back := by
    rw [List.drop_append_eq_append_drop]
    simp
  have hsplit := splitLoop_pasvTuple k a b c d p1 p2 (by unfold npos; omega) ha hb hc hd hp1
  unfold decodePasv
  simp only [hstart, hstop, hs1, hs2, substr, hdrop]
  have hnot : ¬ (front.length + 1 > (front ++ '(' ::
      (pasvTuple a b c d p1 p2 ++ ')' :: back)).length) := by
    simp only [List.length_append, List.length_cons]
    omega
  simp only [hnot, if_false, List.take_left, hk, hsplit, stoi_toDigits p2 hp2]
  have i1 : intResult ((p1 : Int) * 256) = .ok ((p1 : Int) * 256) := by
    unfold intResult
    rw [if_neg]
    omega
  have i2 : intResult ((p1 : Int) * 256 + p2) = .ok ((p1 : Int) * 256 + p2) := by
    unfold intResult
    rw [if_neg]
    omega
  simp [endpointOf, vecAt, to_string_natCast, i1, i2, dottedQuad]

/-! ## Control channel: response codes -/

theorem checkResponseCode_eq (response expectedCode : Str) :
    checkResponseCode response expectedCode =
      if response.take 3 = expectedCode then (true, [])
      else (false, "Expected response starting with ".toList ++ expectedCode ++
        ", but got: ".toList ++ response ++ "\n".toList) := by
  unfold checkResponseCode substr
  by_cases h : response.take 3 = expectedCode <;> simp [h]

theorem checkResponseCode_true_iff (response expectedCode : Str) :
    (checkResponseCode response expectedCode).1 = true ↔ response.take 3 = expectedCode := by
  rw [checkResponseCode_eq]
  by_cases h : response.take 3 = expectedCode <;> simp [h]

theorem checkResponseCode_false_iff (response expectedCode : Str) :
    (checkResponseCode response expectedCode).1 = false ↔ response.take 3 ≠ expectedCode := by
  rw [Ne, ← checkResponseCode_true_iff]
  simp

/-- C2. `checkResponseCode(response, expectedCode)` returns true exactly when
the first three characters of `response` (all of it when it is shorter) equal
`expectedCode`, and false otherwise; `("550 Failed", "550")` gives true and
`("550 Failed", "226")` gives false. -/
theorem checkResponseCode_iff (response expectedCode : Str) :
    ((checkResponseCode response expectedCode).1 = true ↔ response.take 3 = expectedCode) ∧
    ((checkResponseCode response expectedCode).1 = false ↔ response.take 3 ≠ expectedCode) ∧
    ((checkResponseCode response expectedCode).1 = true ↔
      ((response.length < 3 ∧ response = expectedCode) ∨
       (3 ≤ response.length ∧ ∃ x y z rest, response = x :: y :: z :: rest ∧
          expectedCode = [x, y, z]))) ∧
    (checkResponseCode "550 Failed".toList "550".toList).1 = true ∧
    (checkResponseCode "550 Failed".toList "226".toList).1 = false := by
  have h1 := checkResponseCode_true_iff response expectedCode
  refine ⟨h1, checkResponseCode_false_iff response expectedCode, ?_, by decide, by decide⟩
  · rw [h1]
    constructor
    · intro h
      by_cases hl : response.length < 3
      · left
        refine ⟨hl, ?_⟩
        rw [← h]
        exact (List.take_of_length_le (by omega)).symm
      · right
        refine ⟨by omega, ?_⟩
        match response, hl with
        | x :: y :: z :: rest, _ => exact ⟨x, y, z, rest, rfl, by simpa using h.symm⟩
        | [], hl => simp at hl
        | [_], hl => simp at hl
        | [_, _], hl => simp at hl
    · rintro (⟨hl, h⟩ | ⟨_, x, y, z, rest, h, he⟩)
      · rw [← h]
        exact List.take_of_length_le (by omega)
      · rw [h, he]
        rfl

/-! ## Passive-mode negotiation -/

theorem c_str_length_le (buffer : Str) : (c_str buffer).length ≤ buffer.length :=
  (List.takeWhile_sublist _).length_le

/-- C1. For a PASV reply `227 ... (a,b,c,d,p1,p2)` whose six fields are decimal
integers that fit an `int`, `enterPassiveMode` decodes the IP string `a.b.c.d`
and the port `p1*256+p2`, and connects the data socket to that endpoint. -/
theorem enterPassiveMode_endpoint (env : Env) (w : World) (raw text back : Str)
    (a b c d p1 p2 : Nat)
    (hsend : 0 ≤ env.ctrlSend w.nCtrlSend ("PASV".toList ++ "\r\n".toList))
    (hrecv : env.ctrlRecv w.nCtrlRecv = some raw)
    (hresp : c_str (raw.take (BUFFER_SIZE - 1)) =
      ("227".toList ++ text) ++ '(' :: (pasvTuple a b c d p1 p2 ++ ')' :: back))
    (htext : '(' ∉ text)
    (ha : a < 2147483648) (hb : b < 2147483648) (hc : c < 2147483648)
    (hd : d < 2147483648) (hp1 : p1 < 2147483648) (hp2 : p2 < 2147483648)
    (hport : p1 * 256 + p2 < 2147483648)
    (hsock : 0 ≤ env.socketRet w.nSocket) :
    decodePasv (c_str (raw.take (BUFFER_SIZE - 1))) =
      .ok (dottedQuad a b c d, ((p1 * 256 + p2 : Nat) : Int)) ∧
    (enterPassiveMode env w).2.trace = w.trace ++
      [.send env.controlSocket ("PASV".toList ++ "\r\n".toList)
          (env.ctrlSend w.nCtrlSend ("PASV".toList ++ "\r\n".toList)),
       .recv env.controlSocket (BUFFER_SIZE - 1) (raw.take (BUFFER_SIZE - 1)).length
          (raw.take (BUFFER_SIZE - 1)),
       .socket (env.socketRet w.nSocket),
       .connect (env.socketRet w.nSocket) (dottedQuad a b c d)
          ((p1 * 256 + p2 : Nat) : Int) (env.connectRet w.nConnect)] ∧
    ((enterPassiveMode env w).1 = .ok (env.socketRet w.nSocket) ↔
      0 ≤ env.connectRet w.nConnect) := by
  have hlen : (c_str (raw.take (BUFFER_SIZE - 1))).length < 2 ^ 64 := by
    have h1 := c_str_length_le (raw.take (BUFFER_SIZE - 1))
    have h2 : (raw.take (BUFFER_SIZE - 1)).length ≤ BUFFER_SIZE - 1 := by
      simp [List.length_take]
    have h3 : BUFFER_SIZE - 1 = 8191 := rfl
    omega
  have hfront : '(' ∉ "227".toList ++ text := by
    simp [htext]
  have hdec : decodePasv (c_str (raw.take (BUFFER_SIZE - 1))) =
      .ok (dottedQuad a b c d, ((p1 * 256 + p2 : Nat) : Int)) := by
    rw [hresp] at hlen ⊢
    exact decodePasv_wellFormed _ back a b c d p1 p2 hfront hlen ha hb hc hd hp1 hp2 hport
  have hcheck : checkResponseCode (c_str (raw.take (BUFFER_SIZE - 1))) "227".toList =
      (true, []) := by
    rw [checkResponseCode_eq, hresp]
    simp
  have hs : ¬ env.ctrlSend w.nCtrlSend ("PASV".toList ++ "\r\n".toList) < 0 := by omega
  have hk : ¬ env.socketRet w.nSocket < 0 := by omega
  have hr : ¬ (((raw.take (BUFFER_SIZE - 1)).length : Int) < 0) := by omega
  refine ⟨hdec, ?_, ?_⟩
  · simp only [enterPassiveMode, andThen, sendCommand, sysSendCtrl, readResponse, sysRecvCtrl,
      checkCode, liftPure, createSocket, sysSocket, sysConnect, hrecv, hcheck, hdec, hs, hk, hr,
      putErr, if_false, Bool.not_true, Bool.false_eq_true]
    split <;> simp only [List.append_assoc, List.singleton_append, List.cons_append,
      List.nil_append]
  · simp only [enterPassiveMode, andThen, sendCommand, sysSendCtrl, readResponse, sysRecvCtrl,
      checkCode, liftPure, createSocket, sysSocket, sysConnect, hrecv, hcheck, hdec, hs, hk, hr,
      putErr, if_false, Bool.not_true, Bool.false_eq_true]
    split
    · rename_i hneg
      constructor
      · intro h
        cases h
      · intro h
        omega
    · rename_i hneg
      constructor
      · intro _
        omega
      · intro _
        rfl

theorem stoi_throw (s : Str) (e : Exn) (h : stoi s = .throw e) (m : Str) :
    e ≠ .runtime_error m := by
  unfold stoi at h
  simp only at h
  split_ifs at h <;> (cases h; simp)

theorem substr_throw (s : Str) (pos n : Nat) (e : Exn) (h : substr s pos n = .throw e)
    (m : Str) : e ≠ .runtime_error m := by
  unfold substr at h
  split at h
  · cases h; simp
  · cases h

theorem erase_throw (s : Str) (pos n : Nat) (e : Exn) (h : erase s pos n = .throw e)
    (m : Str) : e ≠ .runtime_error m := by
  unfold erase at h
  split at h
  · cases h; simp
  · cases h

theorem splitLoop_throw (fuel : Nat) (data : Str) (vs : List Int) (e : Exn)
    (h : splitLoop fuel data vs = .throw e) (m : Str) : e ≠ .runtime_error m := by
  induction fuel generalizing data vs with
  | zero => simp [splitLoop] at h
  | succ fuel ih =>
    unfold splitLoop at h
    simp only at h
    split at h
    · split at h
      · split at h
        · split at h
          · exact ih _ _ h
          · rename_i he
            cases h
            exact erase_throw _ _ _ _ he m
          · cases h
          · cases h
        · rename_i he
          cases h
          exact stoi_throw _ _ he m
        · cases h
        · cases h
      · rename_i he
        cases h
        exact substr_throw _ _ _ _ he m
      · cases h
      · cases h
    · cases h

theorem endpointOf_throw (vs : List Int) (e : Exn) : endpointOf vs ≠ .throw e := by
  unfold endpointOf
  intro h
  split at h
  · simp only at h
    split at h
    · split at h
      · split at h
        · cases h
        · cases h
      · cases h
    · cases h
  · cases h

theorem decodePasv_throw (response : Str) (e : Exn) (h : decodePasv response = .throw e)
    (m : Str) : e ≠ .runtime_error m := by
  unfold decodePasv at h
  simp only at h
  split at h
  · split at h
    · split at h
      · exact absurd h (endpointOf_throw _ _)
      · rename_i he
        cases h
        exact stoi_throw _ _ he m
      · cases h
      · cases h
    · rename_i he
      cases h
      exact splitLoop_throw _ _ _ _ he m
    · cases h
    · cases h
  · rename_i he
    cases h
    exact substr_throw _ _ _ _ he m
  · cases h
  · cases h

/-- C4. When the response to PASV does not start with `227`,
`enterPassiveMode` throws the protocol error that carries the whole response,
having made no call but the command's `send` and the response's `recv` (no data
socket is created or connected, whatever the response holds); when the
response starts with `227` that error is not thrown. -/
theorem enterPassiveMode_requires_227 (env : Env) (w : World) (raw : Str)
    (hsend : 0 ≤ env.ctrlSend w.nCtrlSend ("PASV".toList ++ "\r\n".toList))
    (hrecv : env.ctrlRecv w.nCtrlRecv = some raw) :
    ((c_str (raw.take (BUFFER_SIZE - 1))).take 3 ≠ "227".toList →
      (enterPassiveMode env w).1 = .throw (.runtime_error
        ("Failed to enter passive mode: ".toList ++ c_str (raw.take (BUFFER_SIZE - 1)))) ∧
      (enterPassiveMode env w).2.trace = w.trace ++
        [.send env.controlSocket ("PASV".toList ++ "\r\n".toList)
            (env.ctrlSend w.nCtrlSend ("PASV".toList ++ "\r\n".toList)),
         .recv env.controlSocket (BUFFER_SIZE - 1) (raw.take (BUFFER_SIZE - 1)).length
            (raw.take (BUFFER_SIZE - 1))] ∧
      (enterPassiveMode env w).2.nSocket = w.nSocket ∧
      (enterPassiveMode env w).2.nConnect = w.nConnect) ∧
    ((c_str (raw.take (BUFFER_SIZE - 1))).take 3 = "227".toList →
      ∀ text : Str, (enterPassiveMode env w).1 ≠
        .throw (.runtime_error ("Failed to enter passive mode: ".toList ++ text))) := by
  have hs : ¬ env.ctrlSend w.nCtrlSend ("PASV".toList ++ "\r\n".toList) < 0 := by omega
  have hr : ¬ (((raw.take (BUFFER_SIZE - 1)).length : Int) < 0) := by omega
  constructor
  · intro h227
    have hcheck : (checkResponseCode (c_str (raw.take (BUFFER_SIZE - 1))) "227".toList).1 =
        false := (checkResponseCode_false_iff _ _).2 h227
    simp only [enterPassiveMode, andThen, sendCommand, sysSendCtrl, readResponse, sysRecvCtrl,
      checkCode, liftPure, hrecv, hcheck, hs, hr, putErr, if_false, Bool.not_false, if_true,
      List.append_assoc, List.singleton_append, List.cons_append, List.nil_append, and_self]
  · intro h227 text
    have hcheck : checkResponseCode (c_str (raw.take (BUFFER_SIZE - 1))) "227".toList =
        (true, []) := by
      rw [checkResponseCode_eq, if_pos h227]
    simp only [enterPassiveMode, andThen, sendCommand, sysSendCtrl, readResponse, sysRecvCtrl,
      checkCode, liftPure, createSocket, sysSocket, sysConnect, hrecv, hcheck, hs, hr,
      putErr, if_false, Bool.not_true, Bool.false_eq_true]
    cases hdec : decodePasv (c_str (raw.take (BUFFER_SIZE - 1))) with
    | ok endpoint =>
      simp only
      split_ifs <;> simp
      split_ifs <;> simp
    | throw e =>
      simp only
      intro h
      cases h
      exact decodePasv_throw _ _ hdec _ rfl
    | undefined => simp
    | diverge => simp

/-! ## Upload: the streaming loop -/

theorem streamsTo_append (fd : Int) (e1 e2 : List Event) (r m f : Str)
    (h1 : streamsTo fd e1 r m) (h2 : streamsTo fd e2 m f) : streamsTo fd (e1 ++ e2) r f := by
  induction e1 generalizing r with
  | nil =>
    simp only [streamsTo] at h1
    subst h1
    simpa using h2
  | cons e t ih =>
    cases e with
    | send fd1 buf ret =>
      simp only [streamsTo, List.cons_append] at h1 ⊢
      obtain ⟨a1, a2, a3, a4, a5, a6, a7⟩ := h1
      exact ⟨a1, a2, a3, a4, a5, a6, ih _ a7⟩
    | recv _ _ _ _ => simp [streamsTo] at h1
    | socket _ => simp [streamsTo] at h1
    | connect _ _ _ _ => simp [streamsTo] at h1
    | close _ => simp [streamsTo] at h1

theorem streamsTo_accepted (fd : Int) (evs : List Event) (r f : Str)
    (h : streamsTo fd evs r f) : r = acceptedBytes evs ++ f := by
  induction evs generalizing r with
  | nil =>
    simp only [streamsTo] at h
    simp [acceptedBytes, h]
  | cons e t ih =>
    cases e with
    | send fd1 buf ret =>
      simp only [streamsTo] at h
      obtain ⟨_, _, ⟨rest, hrest⟩, _, h5, h6, h7⟩ := h
      have ht := ih _ h7
      have hle : ret.toNat ≤ buf.length := by omega
      have hacc : acceptedBytes (Event.send fd1 buf ret :: t) =
          buf.take ret.toNat ++ acceptedBytes t := by
        simp [acceptedBytes, accepted]
      rw [hacc, List.append_assoc, ← ht, ← hrest, List.drop_append_of_le_length hle,
        ← List.append_assoc, List.take_append_drop]
    | recv _ _ _ _ => simp [streamsTo] at h
    | socket _ => simp [streamsTo] at h
    | connect _ _ _ _ => simp [streamsTo] at h
    | close _ => simp [streamsTo] at h

theorem streamsTo_nil_of_empty (fd : Int) (evs : List Event) (f : Str)
    (h : streamsTo fd evs [] f) : evs = [] := by
  cases evs with
  | nil => rfl
  | cons e t =>
    cases e with
    | send fd1 buf ret =>
      simp only [streamsTo] at h
      obtain ⟨_, h2, h3, _⟩ := h
      exact absurd (List.prefix_nil.1 h3) h2
    | recv _ _ _ _ => simp [streamsTo] at h
    | socket _ => simp [streamsTo] at h
    | connect _ _ _ _ => simp [streamsTo] at h
    | close _ => simp [streamsTo] at h

theorem afterSends_nil (w : World) : afterSends w [] = w := by
  simp [afterSends]

theorem afterSends_append (w : World) (e1 e2 : List Event) :
    afterSends (afterSends w e1) e2 = afterSends w (e1 ++ e2) := by
  simp [afterSends, Nat.add_assoc]

theorem sendChunk_streams (env : Env) (fd : Int) (buffer : Str)
    (hprog : ∀ i buf, buf ≠ [] → 1 ≤ env.dataSend i buf ∧ env.dataSend i buf ≤ buf.length)
    (hbuf : buffer.length ≤ BUFFER_SIZE) :
    ∀ (fuel k : Nat) (w : World) (tail : Str), k ≤ buffer.length → buffer.length - k < fuel →
      ∃ evs, sendChunk env fd buffer fuel (k : Int) w = (.ok (), afterSends w evs) ∧
        streamsTo fd evs (buffer.drop k ++ tail) tail := by
  intro fuel
  induction fuel with
  | zero => intro k w tail _ h; omega
  | succ fuel ih =>
    intro k w tail hk hfuel
    have hB : BUFFER_SIZE = 8192 := rfl
    by_cases hlt : k < buffer.length
    · have hne : buffer.drop k ≠ [] := by
        intro h
        have := congrArg List.length h
        simp at this
        omega
      obtain ⟨hlo, hhi⟩ := hprog w.nDataSend (buffer.drop k) hne
      have hdl : (buffer.drop k).length = buffer.length - k := by simp
      obtain ⟨r, hr⟩ : ∃ r : Nat, env.dataSend w.nDataSend (buffer.drop k) = (r : Int) :=
        ⟨(env.dataSend w.nDataSend (buffer.drop k)).toNat, (Int.toNat_of_nonneg (by omega)).symm⟩
      rw [hr] at hlo hhi
      have hr1 : 1 ≤ r := by exact_mod_cast hlo
      have hr2 : r ≤ buffer.length - k := by
        have : r ≤ (buffer.drop k).length := by exact_mod_cast hhi
        omega
      obtain ⟨evs, h1, h2⟩ := ih (k + r)
        (sysSendData env fd (buffer.drop k) w).2 tail (by omega) (by omega)
      refine ⟨Event.send fd (buffer.drop k) r :: evs, ?_, ?_⟩
      · have hcond : ((k : Int) < (buffer.length : Int)) := by exact_mod_cast hlt
        have hnneg : ¬ ((r : Int) < 0) := by omega
        have hint : intResult ((k : Int) + (r : Int)) = .ok (((k + r : Nat) : Int)) := by
          unfold intResult
          rw [if_neg (by omega)]
          simp
        unfold sendChunk
        simp only [hcond, if_true, Int.toNat_ofNat]
        have hsys : (sysSendData env fd (buffer.drop k) w).1 = (r : Int) := by
          simp [sysSendData, hr]
        rw [hsys]
        simp only [hnneg, if_false, hint, h1]
        simp [afterSends, sysSendData, hr, Nat.add_assoc, Nat.add_comm]
        omega
      · simp only [streamsTo]
        refine ⟨trivial, hne, List.prefix_append _ _, by omega, by exact_mod_cast hr1,
          by exact_mod_cast (by omega : r ≤ (buffer.drop k).length), ?_⟩
        have hle : r ≤ (buffer.drop k).length := by omega
        simp only [Int.toNat_ofNat]
        rw [List.drop_append_of_le_length hle, List.drop_drop]
        exact h2
    · have hkeq : k = buffer.length := by omega
      refine ⟨[], ?_, ?_⟩
      · have hcond : ¬ ((k : Int) < (buffer.length : Int)) := by omega
        unfold sendChunk
        simp only [hcond, if_false, afterSends_nil]
      · simp [streamsTo, hkeq]

theorem andThen_ok {α β : Type} (m : M α) (f : α → M β) (w w1 : World) (a : α)
    (h : m w = (.ok a, w1)) : andThen m f w = f a w1 := by
  simp [andThen, h]

theorem andThen_effect {β : Type} (g : World → World) (f : Unit → M β) (w : World) :
    andThen (effect g) f w = f () (g w) := rfl

theorem andThen_throw {α β : Type} (m : M α) (f : α → M β) (w w1 : World) (e : Exn)
    (h : m w = (.throw e, w1)) : andThen m f w = (.throw e, w1) := by
  simp [andThen, h]

theorem uploadLoop_failed (env : Env) (fd : Int) (fuel : Nat) (rest : Str) (w : World) :
    uploadLoop env fd (fuel + 1) { rest := rest, fail := true } w = (.ok (), w) := by
  simp [uploadLoop, IFStream.read]

theorem uploadLoop_streams (env : Env) (fd : Int)
    (hprog : ∀ i buf, buf ≠ [] → 1 ≤ env.dataSend i buf ∧ env.dataSend i buf ≤ buf.length) :
    ∀ (fuel : Nat) (rest : Str) (w : World), rest.length + 2 ≤ fuel →
      ∃ evs, uploadLoop env fd fuel { rest := rest, fail := false } w =
          (.ok (), afterSends w evs) ∧ streamsTo fd evs rest [] := by
  intro fuel
  induction fuel with
  | zero => intro rest w h; omega
  | succ fuel ih =>
    intro rest w hfuel
    have hB : BUFFER_SIZE = 8192 := rfl
    have hread : IFStream.read { rest := rest, fail := false } BUFFER_SIZE =
        (rest.take BUFFER_SIZE, IFStream.mk (rest.drop BUFFER_SIZE)
          (decide ((rest.take BUFFER_SIZE).length < BUFFER_SIZE))) := by
      simp [IFStream.read]
    have htl : (rest.take BUFFER_SIZE).length = min BUFFER_SIZE rest.length := by
      simp [List.length_take]
    by_cases hfull : BUFFER_SIZE ≤ rest.length
    · -- a full chunk was read
      have hgot : (rest.take BUFFER_SIZE).length = BUFFER_SIZE := by omega
      obtain ⟨evs1, h1, s1⟩ := sendChunk_streams env fd (rest.take BUFFER_SIZE) hprog (by omega)
        fuel 0 w (rest.drop BUFFER_SIZE) (by omega) (by omega)
      obtain ⟨evs2, h2, s2⟩ := ih (rest.drop BUFFER_SIZE) (afterSends w evs1)
        (by simp only [List.length_drop]; omega)
      refine ⟨evs1 ++ evs2, ?_, ?_⟩
      · unfold uploadLoop
        simp only [hread, hgot, lt_irrefl, decide_False, Bool.not_false, Bool.true_or, if_true]
        rw [andThen_ok _ _ _ _ _ (by simpa using h1), h2, afterSends_append]
      · simp only [List.drop_zero, List.take_append_drop] at s1
        exact streamsTo_append fd evs1 evs2 _ _ _ s1 s2
    · by_cases hemp : rest = []
      · -- nothing was read
        subst hemp
        refine ⟨[], ?_, by simp [streamsTo]⟩
        unfold uploadLoop
        simp [IFStream.read, hB, afterSends_nil]
      · -- a last, short chunk was read
        have hpos : 0 < rest.length := List.length_pos.2 hemp
        have htake : rest.take BUFFER_SIZE = rest := List.take_of_length_le (by omega)
        have hdrop : rest.drop BUFFER_SIZE = [] := List.drop_of_length_le (by omega)
        obtain ⟨evs1, h1, s1⟩ := sendChunk_streams env fd rest hprog (by omega)
          fuel 0 w [] (by omega) (by omega)
        obtain ⟨f1, hf1⟩ : ∃ f1, fuel = f1 + 1 := ⟨fuel - 1, by omega⟩
        refine ⟨evs1, ?_, by simpa using s1⟩
        unfold uploadLoop
        rw [hread, htake, hdrop]
        have hshort : decide (rest.length < BUFFER_SIZE) = true := by simp; omega
        have hgt : decide (rest.length > 0) = true := by simp; omega
        simp only [hshort, hgt, Bool.or_true, if_true]
        rw [andThen_ok _ _ _ _ _ (by simpa using h1)]
        rw [hf1]
        exact uploadLoop_failed env fd f1 [] _

/-- C3. Whatever the length of the file and however many of the offered
bytes each `send` on the data socket accepts (at least one, at most all), the
streaming loop of `uploadFile` ends normally, every `send` offers a run that
starts at the first byte not yet accepted, and the bytes accepted, in call
order, are exactly the file; an empty file makes no `send` call. -/
theorem uploadLoop_transmits (env : Env) (dataSocket : Int) (content : Str) (w : World)
    (fuel : Nat)
    (hprog : ∀ i buf, buf ≠ [] → 1 ≤ env.dataSend i buf ∧ env.dataSend i buf ≤ buf.length)
    (hfuel : content.length + 2 ≤ fuel) :
    ∃ evs, uploadLoop env dataSocket fuel { rest := content, fail := false } w =
        (.ok (), afterSends w evs) ∧
      streamsTo dataSocket evs content [] ∧
      acceptedBytes evs = content ∧
      (acceptedBytes evs).length = content.length ∧
      (content = [] ↔ evs = []) := by
  obtain ⟨evs, h1, h2⟩ := uploadLoop_streams env dataSocket hprog fuel content w hfuel
  have h3 : acceptedBytes evs = content := by
    have := streamsTo_accepted dataSocket evs content [] h2
    simpa using this.symm
  refine ⟨evs, h1, h2, h3, by rw [h3], ?_⟩
  constructor
  · intro hc
    subst hc
    exact streamsTo_nil_of_empty dataSocket evs [] h2
  · intro he
    subst he
    simpa [acceptedBytes] using h3.symm

/-! ## Stepping through the control channel -/

theorem sendCommand_ok (env : Env) (cmd : Str) (w : World)
    (h : 0 ≤ env.ctrlSend w.nCtrlSend (cmd ++ "\r\n".toList)) :
    sendCommand env cmd w = (.ok (), afterCtrlSend env (cmd ++ "\r\n".toList) w) := by
  have hs : ¬ env.ctrlSend w.nCtrlSend (cmd ++ "\r\n".toList) < 0 := by omega
  simp only [sendCommand, afterCtrlSend, sysSendCtrl, hs, if_false]

theorem readResponse_ok (env : Env) (w : World) (raw : Str)
    (h : env.ctrlRecv w.nCtrlRecv = some raw) :
    readResponse env w = (.ok (c_str (raw.take (BUFFER_SIZE - 1))), afterCtrlRecv env raw w) := by
  have hr : ¬ (((raw.take (BUFFER_SIZE - 1)).length : Int) < 0) := by omega
  simp only [readResponse, afterCtrlRecv, sysRecvCtrl, h, hr, if_false]

theorem neitherCode_eq (response a b : Str) (w : World) :
    neitherCode response a b w =
      (.ok (decide (response.take 3 ≠ a ∧ response.take 3 ≠ b)),
        putErr (neitherDiag response a b) w) := by
  by_cases ha : response.take 3 = a
  · have h1 : (checkResponseCode response a).1 = true := (checkResponseCode_true_iff _ _).2 ha
    have h2 : (checkResponseCode response a).2 = [] := by
      rw [checkResponseCode_eq, if_pos ha]
    have hd : decide (response.take 3 ≠ a ∧ response.take 3 ≠ b) = false := by
      rw [decide_eq_false_iff_not]
      tauto
    simp only [neitherCode, andThen, checkCode, liftPure, neitherDiag, h1, h2, hd, Bool.not_true,
      Bool.false_eq_true, if_false, if_true, List.append_nil]
  · have h1 : (checkResponseCode response a).1 = false :=
      (checkResponseCode_false_iff _ _).2 ha
    have hassoc : putErr (checkResponseCode response b).2
        (putErr (checkResponseCode response a).2 w) =
        putErr ((checkResponseCode response a).2 ++ (checkResponseCode response b).2) w := by
      simp [putErr]
    by_cases hb : response.take 3 = b
    · have h2 : (checkResponseCode response b).1 = true := (checkResponseCode_true_iff _ _).2 hb
      have hd : decide (response.take 3 ≠ a ∧ response.take 3 ≠ b) = false := by
        rw [decide_eq_false_iff_not]
        tauto
      simp only [neitherCode, andThen, checkCode, liftPure, neitherDiag, h1, h2, hd,
        Bool.not_false, if_true, Bool.not_true, hassoc, Bool.false_eq_true, if_false]
    · have h2 : (checkResponseCode response b).1 = false :=
        (checkResponseCode_false_iff _ _).2 hb
      have hd : decide (response.take 3 ≠ a ∧ response.take 3 ≠ b) = true := by
        rw [decide_eq_true_iff]
        exact ⟨ha, hb⟩
      simp only [neitherCode, andThen, checkCode, liftPure, neitherDiag, h1, h2, hd,
        Bool.not_false, if_true, hassoc, Bool.false_eq_true, if_false]

/-! ## Upload: status codes -/

/-- The three ways an upload ends once the transfer has been negotiated. -/
theorem uploadFile_run (env : Env) (fuel : Nat) (localPath remotePath content : Str)
    (w w1 : World) (fd : Int) (rawPrep rawFinal : Str)
    (hdrive : env.fsExists "drive".toList = true)
    (hexists : env.fsExists ("drive".toList ++ "/".toList ++ localPath) = true)
    (hfile : env.fsIsDirectory ("drive".toList ++ "/".toList ++ localPath) = false)
    (hopen : env.openRead ("drive".toList ++ "/".toList ++ localPath) = some content)
    (hpasv : enterPassiveMode env w = (.ok fd, w1))
    (hstor : 0 ≤ env.ctrlSend w1.nCtrlSend ("STOR ".toList ++ remotePath ++ "\r\n".toList))
    (hprep : env.ctrlRecv w1.nCtrlRecv = some rawPrep)
    (hfinal : env.ctrlRecv (w1.nCtrlRecv + 1) = some rawFinal)
    (hprog : ∀ i buf, buf ≠ [] → 1 ≤ env.dataSend i buf ∧ env.dataSend i buf ≤ buf.length)
    (hfuel : content.length + 2 ≤ fuel) :
    ((uploadFile env fuel localPath remotePath w).1 = .ok () ↔
      (((c_str (rawPrep.take (BUFFER_SIZE - 1))).take 3 = "150".toList ∨
        (c_str (rawPrep.take (BUFFER_SIZE - 1))).take 3 = "125".toList) ∧
       ((c_str (rawFinal.take (BUFFER_SIZE - 1))).take 3 = "226".toList ∨
        (c_str (rawFinal.take (BUFFER_SIZE - 1))).take 3 = "250".toList))) ∧
    (¬ ((c_str (rawPrep.take (BUFFER_SIZE - 1))).take 3 = "150".toList ∨
        (c_str (rawPrep.take (BUFFER_SIZE - 1))).take 3 = "125".toList) →
      (uploadFile env fuel localPath remotePath w).1 = .throw (.runtime_error
        ("Failed to initiate file upload: ".toList ++ c_str (rawPrep.take (BUFFER_SIZE - 1)))) ∧
      (uploadFile env fuel localPath remotePath w).2 =
        putErr (neitherDiag (c_str (rawPrep.take (BUFFER_SIZE - 1))) "150".toList "125".toList)
          (afterCtrlRecv env rawPrep
            (afterCtrlSend env ("STOR ".toList ++ remotePath ++ "\r\n".toList) w1)) ∧
      (uploadFile env fuel localPath remotePath w).2.nDataSend = w1.nDataSend ∧
      (uploadFile env fuel localPath remotePath w).2.trace = w1.trace ++
        [.send env.controlSocket ("STOR ".toList ++ remotePath ++ "\r\n".toList)
            (env.ctrlSend w1.nCtrlSend ("STOR ".toList ++ remotePath ++ "\r\n".toList)),
         .recv env.controlSocket (BUFFER_SIZE - 1) (rawPrep.take (BUFFER_SIZE - 1)).length
            (rawPrep.take (BUFFER_SIZE - 1))]) ∧
    (((c_str (rawPrep.take (BUFFER_SIZE - 1))).take 3 = "150".toList ∨
        (c_str (rawPrep.take (BUFFER_SIZE - 1))).take 3 = "125".toList) →
      (¬ ((c_str (rawFinal.take (BUFFER_SIZE - 1))).take 3 = "226".toList ∨
          (c_str (rawFinal.take (BUFFER_SIZE - 1))).take 3 = "250".toList) →
        (uploadFile env fuel localPath remotePath w).1 = .throw (.runtime_error
          ("File upload failed: ".toList ++ c_str (rawFinal.take (BUFFER_SIZE - 1))))) ∧
      ∃ evs, streamsTo fd evs content [] ∧ acceptedBytes evs = content ∧
        (uploadFile env fuel localPath remotePath w).2.trace = w1.trace ++
          [.send env.controlSocket ("STOR ".toList ++ remotePath ++ "\r\n".toList)
              (env.ctrlSend w1.nCtrlSend ("STOR ".toList ++ remotePath ++ "\r\n".toList)),
           .recv env.controlSocket (BUFFER_SIZE - 1) (rawPrep.take (BUFFER_SIZE - 1)).length
              (rawPrep.take (BUFFER_SIZE - 1))] ++ evs ++
          [.close fd,
           .recv env.controlSocket (BUFFER_SIZE - 1) (rawFinal.take (BUFFER_SIZE - 1)).length
              (rawFinal.take (BUFFER_SIZE - 1))]) := by
  have hd1 := neitherCode_eq (c_str (rawPrep.take (BUFFER_SIZE - 1)))
    "150".toList "125".toList
    (afterCtrlRecv env rawPrep (afterCtrlSend env ("STOR ".toList ++ remotePath ++ "\r\n".toList) w1))
  generalize hd1def : neitherDiag (c_str (rawPrep.take (BUFFER_SIZE - 1)))
    "150".toList "125".toList = d1 at hd1
  have hhead : uploadFile env fuel localPath remotePath w =
      (if decide ((c_str (rawPrep.take (BUFFER_SIZE - 1))).take 3 ≠ "150".toList ∧
          (c_str (rawPrep.take (BUFFER_SIZE - 1))).take 3 ≠ "125".toList) = true then
        liftPure (.throw (.runtime_error
          ("Failed to initiate file upload: ".toList ++ c_str (rawPrep.take (BUFFER_SIZE - 1)))))
      else
        andThen (effect (putOut ("Starting file upload: ".toList ++
          ("drive".toList ++ "/".toList ++ localPath) ++ " to ".toList ++ remotePath ++
          "\n".toList))) fun _ =>
        andThen (uploadLoop env fd fuel { rest := content, fail := false }) fun _ =>
        andThen (effect (sysClose fd)) fun _ =>
        andThen (readResponse env) fun final =>
        andThen (neitherCode final "226".toList "250".toList) fun failed =>
        if failed then
          liftPure (.throw (.runtime_error ("File upload failed: ".toList ++ final)))
        else effect (putOut ("File uploaded successfully: ".toList ++
          remotePath ++ "\n".toList)))
      (putErr d1 (afterCtrlRecv env rawPrep
        (afterCtrlSend env ("STOR ".toList ++ remotePath ++ "\r\n".toList) w1))) := by
    unfold uploadFile
    simp only [hdrive, hexists, hfile, hopen, Bool.not_true, Bool.false_eq_true, if_false,
      Bool.or_false]
    rw [andThen_ok _ _ _ _ _ hpasv,
      andThen_ok _ _ _ _ _ (sendCommand_ok env _ w1 hstor),
      andThen_ok _ _ _ _ _ (readResponse_ok env (afterCtrlSend env _ w1) rawPrep hprep),
      andThen_ok _ _ _ _ _ hd1]
  rw [hhead]
  by_cases hprepOK : (c_str (rawPrep.take (BUFFER_SIZE - 1))).take 3 = "150".toList ∨
      (c_str (rawPrep.take (BUFFER_SIZE - 1))).take 3 = "125".toList
  · have hdec : decide ((c_str (rawPrep.take (BUFFER_SIZE - 1))).take 3 ≠ "150".toList ∧
          (c_str (rawPrep.take (BUFFER_SIZE - 1))).take 3 ≠ "125".toList) = false := by
      rw [decide_eq_false_iff_not]
      tauto
    rw [hdec, if_neg Bool.false_ne_true]
    generalize hW5 : putOut ("Starting file upload: ".toList ++
          ("drive".toList ++ "/".toList ++ localPath) ++ " to ".toList ++ remotePath ++
          "\n".toList) (putErr d1 (afterCtrlRecv env rawPrep
        (afterCtrlSend env ("STOR ".toList ++ remotePath ++ "\r\n".toList) w1))) = W5
    have hW5r : W5.nCtrlRecv = w1.nCtrlRecv + 1 := by rw [← hW5]; rfl
    have hW5t : W5.trace = w1.trace ++
        [.send env.controlSocket ("STOR ".toList ++ remotePath ++ "\r\n".toList)
            (env.ctrlSend w1.nCtrlSend ("STOR ".toList ++ remotePath ++ "\r\n".toList)),
         .recv env.controlSocket (BUFFER_SIZE - 1) (rawPrep.take (BUFFER_SIZE - 1)).length
            (rawPrep.take (BUFFER_SIZE - 1))] := by
      rw [← hW5]
      simp only [putOut, putErr, afterCtrlRecv, afterCtrlSend, sysSendCtrl, List.append_assoc,
        List.singleton_append]
    obtain ⟨evs, hloop, hstream⟩ := uploadLoop_streams env fd hprog fuel content W5 hfuel
    have hacc : acceptedBytes evs = content := by
      have := streamsTo_accepted fd evs content [] hstream
      simpa using this.symm
    have hfinal1 : env.ctrlRecv (sysClose fd (afterSends W5 evs)).nCtrlRecv = some rawFinal := by
      have : (sysClose fd (afterSends W5 evs)).nCtrlRecv = w1.nCtrlRecv + 1 := by
        rw [← hW5r]; rfl
      rw [this]; exact hfinal
    have hd2 := neitherCode_eq (c_str (rawFinal.take (BUFFER_SIZE - 1)))
      "226".toList "250".toList (afterCtrlRecv env rawFinal (sysClose fd (afterSends W5 evs)))
    generalize neitherDiag (c_str (rawFinal.take (BUFFER_SIZE - 1)))
      "226".toList "250".toList = d2 at hd2
    rw [andThen_effect, hW5, andThen_ok _ _ _ _ _ hloop, andThen_effect,
      andThen_ok _ _ _ _ _ (readResponse_ok env (sysClose fd (afterSends W5 evs)) rawFinal hfinal1),
      andThen_ok _ _ _ _ _ hd2]
    by_cases hfinalOK : (c_str (rawFinal.take (BUFFER_SIZE - 1))).take 3 = "226".toList ∨
        (c_str (rawFinal.take (BUFFER_SIZE - 1))).take 3 = "250".toList
    · have hdec2 : decide ((c_str (rawFinal.take (BUFFER_SIZE - 1))).take 3 ≠ "226".toList ∧
            (c_str (rawFinal.take (BUFFER_SIZE - 1))).take 3 ≠ "250".toList) = false := by
        rw [decide_eq_false_iff_not]
        tauto
      rw [hdec2, if_neg Bool.false_ne_true]
      unfold effect
      refine ⟨⟨fun _ => ⟨hprepOK, hfinalOK⟩, fun _ => rfl⟩, fun h => absurd hprepOK h, fun _ => ?_⟩
      refine ⟨fun h => absurd hfinalOK h, evs, hstream, hacc, ?_⟩
      simp only [putOut, putErr, afterCtrlRecv, sysClose, afterSends, hW5t, List.append_assoc,
        List.singleton_append, List.cons_append, List.nil_append]
    · have hdec2 : decide ((c_str (rawFinal.take (BUFFER_SIZE - 1))).take 3 ≠ "226".toList ∧
            (c_str (rawFinal.take (BUFFER_SIZE - 1))).take 3 ≠ "250".toList) = true := by
        rw [decide_eq_true_iff]
        tauto
      rw [hdec2, if_pos rfl]
      unfold liftPure
      refine ⟨⟨fun h => (by cases h), fun h => absurd h.2 hfinalOK⟩, fun h => absurd hprepOK h,
        fun _ => ?_⟩
      refine ⟨fun _ => rfl, evs, hstream, hacc, ?_⟩
      simp only [putErr, afterCtrlRecv, sysClose, afterSends, hW5t, List.append_assoc,
        List.singleton_append, List.cons_append, List.nil_append]
  · have hdec : decide ((c_str (rawPrep.take (BUFFER_SIZE - 1))).take 3 ≠ "150".toList ∧
          (c_str (rawPrep.take (BUFFER_SIZE - 1))).take 3 ≠ "125".toList) = true := by
      rw [decide_eq_true_iff]
      tauto
    rw [hdec, if_pos rfl]
    unfold liftPure
    refine ⟨⟨fun h => (by cases h), fun h => absurd h.1 hprepOK⟩, fun _ => ⟨rfl, rfl, rfl, ?_⟩,
      fun h => absurd h hprepOK⟩
    simp only [putErr, afterCtrlRecv, afterCtrlSend, sysSendCtrl, List.append_assoc,
      List.singleton_append]

/-- C6. With the local file present, passive mode negotiated and every `send`
accepted, `uploadFile` returns normally exactly when the preparatory response
starts with `150` or `125` and the final response starts with `226` or `250`.
A preparatory response with neither gives the protocol error carrying that
response and no `send` on the data connection; a final response with neither
gives the upload-failure error carrying that response. -/
theorem uploadFile_status (env : Env) (fuel : Nat) (localPath remotePath content : Str)
    (w w1 : World) (fd : Int) (rawPrep rawFinal : Str)
    (hdrive : env.fsExists "drive".toList = true)
    (hexists : env.fsExists ("drive".toList ++ "/".toList ++ localPath) = true)
    (hfile : env.fsIsDirectory ("drive".toList ++ "/".toList ++ localPath) = false)
    (hopen : env.openRead ("drive".toList ++ "/".toList ++ localPath) = some content)
    (hpasv : enterPassiveMode env w = (.ok fd, w1))
    (hstor : 0 ≤ env.ctrlSend w1.nCtrlSend ("STOR ".toList ++ remotePath ++ "\r\n".toList))
    (hprep : env.ctrlRecv w1.nCtrlRecv = some rawPrep)
    (hfinal : env.ctrlRecv (w1.nCtrlRecv + 1) = some rawFinal)
    (hprog : ∀ i buf, buf ≠ [] → 1 ≤ env.dataSend i buf ∧ env.dataSend i buf ≤ buf.length)
    (hfuel : content.length + 2 ≤ fuel) :
    ((uploadFile env fuel localPath remotePath w).1 = .ok () ↔
      (((c_str (rawPrep.take (BUFFER_SIZE - 1))).take 3 = "150".toList ∨
        (c_str (rawPrep.take (BUFFER_SIZE - 1))).take 3 = "125".toList) ∧
       ((c_str (rawFinal.take (BUFFER_SIZE - 1))).take 3 = "226".toList ∨
        (c_str (rawFinal.take (BUFFER_SIZE - 1))).take 3 = "250".toList))) ∧
    (¬ ((c_str (rawPrep.take (BUFFER_SIZE - 1))).take 3 = "150".toList ∨
        (c_str (rawPrep.take (BUFFER_SIZE - 1))).take 3 = "125".toList) →
      (uploadFile env fuel localPath remotePath w).1 = .throw (.runtime_error
        ("Failed to initiate file upload: ".toList ++ c_str (rawPrep.take (BUFFER_SIZE - 1)))) ∧
      (uploadFile env fuel localPath remotePath w).2.nDataSend = w1.nDataSend ∧
      (uploadFile env fuel localPath remotePath w).2.trace = w1.trace ++
        [.send env.controlSocket ("STOR ".toList ++ remotePath ++ "\r\n".toList)
            (env.ctrlSend w1.nCtrlSend ("STOR ".toList ++ remotePath ++ "\r\n".toList)),
         .recv env.controlSocket (BUFFER_SIZE - 1) (rawPrep.take (BUFFER_SIZE - 1)).length
            (rawPrep.take (BUFFER_SIZE - 1))]) ∧
    (((c_str (rawPrep.take (BUFFER_SIZE - 1))).take 3 = "150".toList ∨
        (c_str (rawPrep.take (BUFFER_SIZE - 1))).take 3 = "125".toList) →
      (¬ ((c_str (rawFinal.take (BUFFER_SIZE - 1))).take 3 = "226".toList ∨
          (c_str (rawFinal.take (BUFFER_SIZE - 1))).take 3 = "250".toList) →
        (uploadFile env fuel localPath remotePath w).1 = .throw (.runtime_error
          ("File upload failed: ".toList ++ c_str (rawFinal.take (BUFFER_SIZE - 1))))) ∧
      ∃ evs, streamsTo fd evs content [] ∧ acceptedBytes evs = content ∧
        (uploadFile env fuel localPath remotePath w).2.trace = w1.trace ++
          [.send env.controlSocket ("STOR ".toList ++ remotePath ++ "\r\n".toList)
              (env.ctrlSend w1.nCtrlSend ("STOR ".toList ++ remotePath ++ "\r\n".toList)),
           .recv env.controlSocket (BUFFER_SIZE - 1) (rawPrep.take (BUFFER_SIZE - 1)).length
              (rawPrep.take (BUFFER_SIZE - 1))] ++ evs ++
          [.close fd,
           .recv env.controlSocket (BUFFER_SIZE - 1) (rawFinal.take (BUFFER_SIZE - 1)).length
              (rawFinal.take (BUFFER_SIZE - 1))]) := by
  have h := uploadFile_run env fuel localPath remotePath content w w1 fd rawPrep rawFinal
    hdrive hexists hfile hopen hpasv hstor hprep hfinal hprog hfuel
  exact ⟨h.1, fun hn => ⟨(h.2.1 hn).1, (h.2.1 hn).2.2.1, (h.2.1 hn).2.2.2⟩, h.2.2⟩


/-! ## Download -/

theorem fileGet_fileAppend (path data : Str) (w : World) :
    fileGet (fileAppend path data w).files path =
      some ((fileGet w.files path).getD [] ++ data) := by
  simp [fileGet, fileAppend, List.lookup]

theorem sysRecvData_snd (env : Env) (fd : Int) (w : World) :
    (sysRecvData env fd BUFFER_SIZE w).2 = afterDataRecv env fd w := by
  unfold sysRecvData afterDataRecv dataRecvEvent
  cases env.dataRecv w.nDataRecv <;> rfl

theorem recvLoop_more (env : Env) (fd : Int) (sink : Str → World → World) (f : Nat)
    (w : World) (bytes : Str) (h : env.dataRecv w.nDataRecv = some bytes) (hne : bytes ≠ []) :
    recvLoop env fd sink (f + 1) w =
      recvLoop env fd sink f (sink (bytes.take BUFFER_SIZE) (afterDataRecv env fd w)) := by
  have hB : BUFFER_SIZE = 8192 := rfl
  have hpos : 0 < (bytes.take BUFFER_SIZE).length := by
    have : 0 < bytes.length := List.length_pos.2 hne
    simp only [List.length_take]
    omega
  have h1 : (sysRecvData env fd BUFFER_SIZE w).1 =
      (((bytes.take BUFFER_SIZE).length : Int), bytes.take BUFFER_SIZE) := by
    simp only [sysRecvData, h]
  have hgt : (((bytes.take BUFFER_SIZE).length : Int)) > 0 := by omega
  rw [recvLoop]
  simp only [h1, sysRecvData_snd, hgt, if_true]

theorem recvLoop_end (env : Env) (fd : Int) (sink : Str → World → World) (f : Nat)
    (w : World) (h : env.dataRecv w.nDataRecv = none ∨ env.dataRecv w.nDataRecv = some []) :
    recvLoop env fd sink (f + 1) w = (.ok (), afterDataRecv env fd w) := by
  have h1 : ¬ ((sysRecvData env fd BUFFER_SIZE w).1.1 > 0) := by
    rcases h with h | h <;> simp [sysRecvData, h]
  rw [recvLoop]
  simp only [h1, sysRecvData_snd, if_false]

theorem recvLoop_file (env : Env) (fd : Int) (path : Str) :
    ∀ (n fuel : Nat) (w : World) (c0 : Str),
      (∀ i, i < n → ∃ bytes, env.dataRecv (w.nDataRecv + i) = some bytes ∧ bytes ≠ []) →
      (env.dataRecv (w.nDataRecv + n) = none ∨ env.dataRecv (w.nDataRecv + n) = some []) →
      n + 1 ≤ fuel → fileGet w.files path = some c0 →
      ∃ w1 evs, recvLoop env fd (fileAppend path) fuel w = (.ok (), w1) ∧
        w1.trace = w.trace ++ evs ∧ evs.length = n + 1 ∧
        (∀ e ∈ evs, ∃ len ret got, e = Event.recv fd len ret got) ∧
        w1.nCtrlRecv = w.nCtrlRecv ∧ w1.nCtrlSend = w.nCtrlSend ∧
        fileGet w1.files path = some (c0 ++ received env w.nDataRecv n) := by
  have hev : ∀ k, ∃ len ret got, dataRecvEvent env fd k = Event.recv fd len ret got := by
    intro k
    unfold dataRecvEvent
    cases env.dataRecv k with
    | none => exact ⟨_, _, _, rfl⟩
    | some bytes => exact ⟨_, _, _, rfl⟩
  intro n
  induction n with
  | zero =>
    intro fuel w c0 _ hend hfuel hfile
    obtain ⟨f, rfl⟩ : ∃ f, fuel = f + 1 := ⟨fuel - 1, by omega⟩
    refine ⟨afterDataRecv env fd w, [dataRecvEvent env fd w.nDataRecv],
      recvLoop_end env fd _ f w (by simpa using hend), rfl, rfl, ?_, rfl, rfl, ?_⟩
    · intro e he
      simp only [List.mem_singleton] at he
      rw [he]
      exact hev _
    · simpa [received, afterDataRecv] using hfile
  | succ n ih =>
    intro fuel w c0 hchunks hend hfuel hfile
    obtain ⟨f, rfl⟩ : ∃ f, fuel = f + 1 := ⟨fuel - 1, by omega⟩
    obtain ⟨bytes, hb, hne⟩ := hchunks 0 (by omega)
    simp only [Nat.add_zero] at hb
    have hnext : (fileAppend path (bytes.take BUFFER_SIZE) (afterDataRecv env fd w)).nDataRecv =
        w.nDataRecv + 1 := rfl
    have hfile1 : fileGet (fileAppend path (bytes.take BUFFER_SIZE)
        (afterDataRecv env fd w)).files path = some (c0 ++ bytes.take BUFFER_SIZE) := by
      rw [fileGet_fileAppend]
      have : fileGet (afterDataRecv env fd w).files path = some c0 := hfile
      rw [this]
      rfl
    obtain ⟨w1, evs, h1, h2, h3, h4, h5, h6, h7⟩ := ih f
      (fileAppend path (bytes.take BUFFER_SIZE) (afterDataRecv env fd w))
      (c0 ++ bytes.take BUFFER_SIZE)
      (by
        intro i hi
        rw [hnext]
        have := hchunks (i + 1) (by omega)
        rwa [show w.nDataRecv + (i + 1) = w.nDataRecv + 1 + i by omega] at this)
      (by
        rw [hnext]
        rwa [show w.nDataRecv + (n + 1) = w.nDataRecv + 1 + n by omega] at hend)
      (by omega) hfile1
    refine ⟨w1, dataRecvEvent env fd w.nDataRecv :: evs, ?_, ?_, by simp [h3], ?_, ?_, ?_, ?_⟩
    · rw [recvLoop_more env fd _ f w bytes hb hne, h1]
    · rw [h2]
      simp [fileAppend, afterDataRecv]
    · intro e he
      rcases List.mem_cons.1 he with he | he
      · rw [he]; exact hev _
      · exact h4 e he
    · rw [h5]; rfl
    · rw [h6]; rfl
    · rw [h7, hnext]
      simp [received, hb, List.append_assoc]

theorem checkCode_eq (response expectedCode : Str) (w : World) :
    checkCode response expectedCode w =
      (.ok (decide (response.take 3 = expectedCode)),
        putErr (checkResponseCode response expectedCode).2 w) := by
  unfold checkCode
  by_cases h : response.take 3 = expectedCode
  · simp [(checkResponseCode_true_iff response expectedCode).2 h, h]
  · simp [(checkResponseCode_false_iff response expectedCode).2 h, h]

/-- C7. With passive mode negotiated and the destination file created,
`downloadFile` returns normally exactly when the final response starts with
`226`, whatever the response to RETR is, and otherwise throws the
download-failure error carrying the final response; either way the
destination file holds the bytes received on the data connection up to the
first `recv` that delivers nothing. -/
theorem downloadFile_status (env : Env) (fuel n : Nat) (remotePath localPath : Str)
    (w w1 : World) (fd : Int) (rawPrep rawFinal : Str)
    (hpasv : enterPassiveMode env (downloadStart env w) = (.ok fd, w1))
    (hretr : 0 ≤ env.ctrlSend w1.nCtrlSend ("RETR ".toList ++ remotePath ++ "\r\n".toList))
    (hprep : env.ctrlRecv w1.nCtrlRecv = some rawPrep)
    (hcreate : env.openWrite ("drive".toList ++ "/".toList ++ localPath) = true)
    (hchunks : ∀ i, i < n → ∃ bytes, env.dataRecv (w1.nDataRecv + i) = some bytes ∧ bytes ≠ [])
    (hend : env.dataRecv (w1.nDataRecv + n) = none ∨ env.dataRecv (w1.nDataRecv + n) = some [])
    (hfinal : env.ctrlRecv (w1.nCtrlRecv + 1) = some rawFinal)
    (hfuel : n + 1 ≤ fuel) :
    ((downloadFile env fuel remotePath localPath w).1 = .ok () ↔
      (c_str (rawFinal.take (BUFFER_SIZE - 1))).take 3 = "226".toList) ∧
    ((c_str (rawFinal.take (BUFFER_SIZE - 1))).take 3 ≠ "226".toList →
      (downloadFile env fuel remotePath localPath w).1 = .throw (.runtime_error
        ("Failed to download file: ".toList ++ c_str (rawFinal.take (BUFFER_SIZE - 1))))) ∧
    fileGet (downloadFile env fuel remotePath localPath w).2.files
      ("drive".toList ++ "/".toList ++ localPath) = some (received env w1.nDataRecv n) ∧
    ∃ evs, evs.length = n + 1 ∧ (∀ e ∈ evs, ∃ len ret got, e = Event.recv fd len ret got) ∧
      (downloadFile env fuel remotePath localPath w).2.trace = w1.trace ++
        [.send env.controlSocket ("RETR ".toList ++ remotePath ++ "\r\n".toList)
            (env.ctrlSend w1.nCtrlSend ("RETR ".toList ++ remotePath ++ "\r\n".toList)),
         .recv env.controlSocket (BUFFER_SIZE - 1) (rawPrep.take (BUFFER_SIZE - 1)).length
            (rawPrep.take (BUFFER_SIZE - 1))] ++ evs ++
        [.close fd,
         .recv env.controlSocket (BUFFER_SIZE - 1) (rawFinal.take (BUFFER_SIZE - 1)).length
            (rawFinal.take (BUFFER_SIZE - 1))] := by
  generalize hW5 : fileCreate ("drive".toList ++ "/".toList ++ localPath)
    (putOut (c_str (rawPrep.take (BUFFER_SIZE - 1))) (afterCtrlRecv env rawPrep
      (afterCtrlSend env ("RETR ".toList ++ remotePath ++ "\r\n".toList) w1))) = W5
  have hW5r : W5.nCtrlRecv = w1.nCtrlRecv + 1 := by rw [← hW5]; rfl
  have hW5d : W5.nDataRecv = w1.nDataRecv := by rw [← hW5]; rfl
  have hW5f : fileGet W5.files ("drive".toList ++ "/".toList ++ localPath) = some [] := by
    rw [← hW5]
    simp [fileGet, fileCreate, List.lookup]
  have hW5t : W5.trace = w1.trace ++
      [.send env.controlSocket ("RETR ".toList ++ remotePath ++ "\r\n".toList)
          (env.ctrlSend w1.nCtrlSend ("RETR ".toList ++ remotePath ++ "\r\n".toList)),
       .recv env.controlSocket (BUFFER_SIZE - 1) (rawPrep.take (BUFFER_SIZE - 1)).length
          (rawPrep.take (BUFFER_SIZE - 1))] := by
    rw [← hW5]
    simp only [fileCreate, putOut, afterCtrlRecv, afterCtrlSend, sysSendCtrl, List.append_assoc,
      List.singleton_append]
  obtain ⟨w6, evs, hloop, h6t, hlen, hall, h6r, _, h6f⟩ := recvLoop_file env fd
    ("drive".toList ++ "/".toList ++ localPath) n fuel W5 []
    (by rw [hW5d]; exact hchunks) (by rw [hW5d]; exact hend) hfuel hW5f
  have hfinal1 : env.ctrlRecv (sysClose fd w6).nCtrlRecv = some rawFinal := by
    have : (sysClose fd w6).nCtrlRecv = w1.nCtrlRecv + 1 := by
      rw [← hW5r, ← h6r]; rfl
    rw [this]; exact hfinal
  have hhead : downloadFile env fuel remotePath localPath w =
      (if (!decide ((c_str (rawFinal.take (BUFFER_SIZE - 1))).take 3 = "226".toList)) = true then
        liftPure (.throw (.runtime_error
          ("Failed to download file: ".toList ++ c_str (rawFinal.take (BUFFER_SIZE - 1)))))
      else effect (putOut ("File downloaded successfully: ".toList ++
        remotePath ++ "\n".toList)))
      (putErr (checkResponseCode (c_str (rawFinal.take (BUFFER_SIZE - 1))) "226".toList).2
        (afterCtrlRecv env rawFinal (sysClose fd w6))) := by
    unfold downloadFile
    simp only [hcreate, Bool.not_true, Bool.false_eq_true, if_false]
    rw [andThen_ok _ _ _ _ _ hpasv,
      andThen_ok _ _ _ _ _ (sendCommand_ok env _ w1 hretr),
      andThen_ok _ _ _ _ _ (readResponse_ok env (afterCtrlSend env _ w1) rawPrep hprep),
      andThen_effect, andThen_effect, hW5, andThen_ok _ _ _ _ _ hloop, andThen_effect,
      andThen_ok _ _ _ _ _ (readResponse_ok env (sysClose fd w6) rawFinal hfinal1),
      andThen_ok _ _ _ _ _ (checkCode_eq _ _ _)]
  rw [hhead]
  have hfiles : ∀ (text diag : Str), fileGet (putOut text (putErr diag
      (afterCtrlRecv env rawFinal (sysClose fd w6)))).files
      ("drive".toList ++ "/".toList ++ localPath) = some (received env w1.nDataRecv n) := by
    intro text diag
    have := h6f
    rw [hW5d] at this
    simpa [putOut, putErr, afterCtrlRecv, sysClose] using this
  have hfiles1 : ∀ (diag : Str), fileGet (putErr diag
      (afterCtrlRecv env rawFinal (sysClose fd w6))).files
      ("drive".toList ++ "/".toList ++ localPath) = some (received env w1.nDataRecv n) := by
    intro diag
    have := h6f
    rw [hW5d] at this
    simpa [putErr, afterCtrlRecv, sysClose] using this
  by_cases h226 : (c_str (rawFinal.take (BUFFER_SIZE - 1))).take 3 = "226".toList
  · have hd : (!decide ((c_str (rawFinal.take (BUFFER_SIZE - 1))).take 3 = "226".toList)) =
        false := by rw [decide_eq_true h226]; rfl
    rw [hd, if_neg Bool.false_ne_true]
    unfold effect
    refine ⟨⟨fun _ => h226, fun _ => rfl⟩, fun h => absurd h226 h, hfiles _ _, evs, hlen, hall, ?_⟩
    simp only [putOut, putErr, afterCtrlRecv, sysClose, h6t, hW5t, List.append_assoc,
      List.singleton_append, List.cons_append, List.nil_append]
  · have hd : (!decide ((c_str (rawFinal.take (BUFFER_SIZE - 1))).take 3 = "226".toList)) =
        true := by rw [decide_eq_false h226]; rfl
    rw [hd, if_pos rfl]
    unfold liftPure
    refine ⟨⟨fun h => (by cases h), fun h => absurd h h226⟩, fun _ => rfl, hfiles1 _, evs, hlen,
      hall, ?_⟩
    simp only [putErr, afterCtrlRecv, sysClose, h6t, hW5t, List.append_assoc,
      List.singleton_append, List.cons_append, List.nil_append]

/-! ## Concrete runs of the negotiation -/

/-- C1, at the reply `227 Entering Passive Mode (127,0,0,1,19,137)`: the
endpoint is `127.0.0.1`, port `5001`. -/
theorem enterPassiveMode_endpoint_witness :
    decodePasv (c_str (pasvReply.take (BUFFER_SIZE - 1))) =
      .ok ("127.0.0.1".toList, 5001) ∧
    (enterPassiveMode (scriptEnv [pasvReply] 3 [] []) World.init).2.trace =
      [.send 3 "PASV\r\n".toList 6, .recv 3 8191 46 pasvReply, .socket 4,
       .connect 4 "127.0.0.1".toList 5001 0] ∧
    (enterPassiveMode (scriptEnv [pasvReply] 3 [] []) World.init).1 = .ok 4 := by
  have h := enterPassiveMode_endpoint (scriptEnv [pasvReply] 3 [] []) World.init pasvReply
    " Entering Passive Mode ".toList "\r\n".toList 127 0 0 1 19 137
    (by decide) rfl (by decide) (by decide) (by decide) (by decide) (by decide) (by decide)
    (by decide) (by decide) (by decide) (by decide)
  exact ⟨h.1, h.2.1, h.2.2.2 (by decide)⟩

/-- C4, at the response `500 Unknown command`. -/
theorem enterPassiveMode_requires_227_witness :
    (enterPassiveMode (scriptEnv ["500 Unknown command\r\n".toList] 3 [] []) World.init).1 =
      .throw (.runtime_error
        "Failed to enter passive mode: 500 Unknown command\r\n".toList) ∧
    (enterPassiveMode (scriptEnv ["500 Unknown command\r\n".toList] 3 [] []) World.init).2.trace =
      [.send 3 "PASV\r\n".toList 6, .recv 3 8191 21 "500 Unknown command\r\n".toList] ∧
    (enterPassiveMode (scriptEnv ["500 Unknown command\r\n".toList] 3 [] [])
      World.init).2.nSocket = 0 ∧
    (enterPassiveMode (scriptEnv ["500 Unknown command\r\n".toList] 3 [] [])
      World.init).2.nConnect = 0 :=
  (enterPassiveMode_requires_227 (scriptEnv ["500 Unknown command\r\n".toList] 3 [] [])
    World.init "500 Unknown command\r\n".toList (by decide) rfl).1 (by decide)

/-- C5, on the code: replies that are not six integer fields in parentheses
are decoded all the same.  A seventh field is dropped, a field with trailing
text is read up to the text, a reply without parentheses is split as a whole;
with five fields the sixth value is read past the end of the vector.  Only a
field without a leading number is refused. -/
theorem decodePasv_accepts_malformed :
    decodePasv "227 Entering Passive Mode (127,0,0,1,19,137,5)".toList =
      .ok ("127.0.0.1".toList, 5001) ∧
    decodePasv "227 Entering Passive Mode (127,0,0,1,19,137x)".toList =
      .ok ("127.0.0.1".toList, 5001) ∧
    decodePasv "227 127,0,0,1,19,137".toList = .ok ("227.0.0.1".toList, 5001) ∧
    decodePasv "227 Entering Passive Mode (127,0,0,1,19)".toList = .undefined ∧
    decodePasv "227 Entering Passive Mode (127,0,0,one,19,137)".toList =
      .throw (.invalid_argument "stoi".toList) ∧
    (enterPassiveMode (scriptEnv ["227 Entering Passive Mode (127,0,0,1,19,137,5)".toList]
      3 [] []) World.init).1 = .ok 4 ∧
    (enterPassiveMode (scriptEnv ["227 Entering Passive Mode (127,0,0,1,19,137,5)".toList]
      3 [] []) World.init).2.trace =
      [.send 3 "PASV\r\n".toList 6,
       .recv 3 8191 46 "227 Entering Passive Mode (127,0,0,1,19,137,5)".toList,
       .socket 4, .connect 4 "127.0.0.1".toList 5001 0] := by
  refine ⟨by decide, by decide, by decide, by decide, by decide, by decide, by decide⟩

/-! ## Concrete runs of the transfers -/

/-- C3, at the 11-byte file `hello world` and a socket that takes three
bytes per call. -/
theorem uploadLoop_transmits_witness :
    ∃ evs, uploadLoop (scriptEnv [] 3 [] []) 4 13
        { rest := "hello world".toList, fail := false } World.init =
        (.ok (), afterSends World.init evs) ∧
      streamsTo 4 evs "hello world".toList [] ∧
      acceptedBytes evs = "hello world".toList ∧
      (acceptedBytes evs).length = 11 ∧
      ("hello world".toList = [] ↔ evs = []) :=
  uploadLoop_transmits (scriptEnv [] 3 [] []) 4 "hello world".toList World.init 13
    (fun i buf hb => by
      have := List.length_pos.2 hb
      simp only [scriptEnv]
      omega)
    (by decide)

/-- C6, at an upload that the server accepts with `150` and ends with `226`. -/
theorem uploadFile_status_witness :
    (uploadFile (scriptEnv [pasvReply, "150 Ok to send data\r\n".toList,
        "226 Transfer complete\r\n".toList] 3 []
        [("drive/local.txt".toList, "hello world".toList)])
      13 "local.txt".toList "remote.txt".toList World.init).1 = .ok () :=
  ((uploadFile_status (scriptEnv [pasvReply, "150 Ok to send data\r\n".toList,
        "226 Transfer complete\r\n".toList] 3 []
        [("drive/local.txt".toList, "hello world".toList)])
      13 "local.txt".toList "remote.txt".toList "hello world".toList World.init
      (enterPassiveMode (scriptEnv [pasvReply, "150 Ok to send data\r\n".toList,
        "226 Transfer complete\r\n".toList] 3 []
        [("drive/local.txt".toList, "hello world".toList)]) World.init).2
      4 "150 Ok to send data\r\n".toList "226 Transfer complete\r\n".toList
      (by decide) (by decide) (by decide) (by decide)
      (Prod.ext (by decide) rfl) (by decide) (by decide) (by decide)
      (fun i buf hb => by
        have := List.length_pos.2 hb
        simp only [scriptEnv]
        omega)
      (by decide)).1).2 ⟨Or.inl (by decide), Or.inl (by decide)⟩

/-- C7, at a download of `hello world` in two chunks that ends with `226`. -/
theorem downloadFile_status_witness :
    (downloadFile (scriptEnv [pasvReply, "150 Opening data connection\r\n".toList,
        "226 Transfer complete\r\n".toList] 3 ["hello ".toList, "world".toList] [])
      3 "remote.txt".toList "copy.txt".toList World.init).1 = .ok () ∧
    fileGet (downloadFile (scriptEnv [pasvReply, "150 Opening data connection\r\n".toList,
        "226 Transfer complete\r\n".toList] 3 ["hello ".toList, "world".toList] [])
      3 "remote.txt".toList "copy.txt".toList World.init).2.files "drive/copy.txt".toList =
      some "hello world".toList := by
  have h := downloadFile_status (scriptEnv [pasvReply,
        "150 Opening data connection\r\n".toList,
        "226 Transfer complete\r\n".toList] 3 ["hello ".toList, "world".toList] [])
      3 2 "remote.txt".toList "copy.txt".toList World.init
      (enterPassiveMode (scriptEnv [pasvReply, "150 Opening data connection\r\n".toList,
        "226 Transfer complete\r\n".toList] 3 ["hello ".toList, "world".toList] [])
        World.init).2
      4 "150 Opening data connection\r\n".toList "226 Transfer complete\r\n".toList
      (Prod.ext (by decide) rfl) (by decide) (by decide) (by decide)
      (fun i hi => by
        interval_cases i
        · exact ⟨"hello ".toList, by decide, by decide⟩
        · exact ⟨"world".toList, by decide, by decide⟩)
      (Or.inr (by decide)) (by decide) (by decide)
  exact ⟨h.1.2 (by decide), h.2.2.1⟩

/-! ## Upload: the local path -/

/-- C8, as the code has it. When the storage root is missing, or
`drive/localPath` does not exist or is a directory, `uploadFile` throws the
not-found error and leaves the state as it was: no command is sent and no
socket is created or connected. -/
theorem uploadFile_not_found (env : Env) (fuel : Nat) (localPath remotePath : Str) (w : World)
    (h : env.fsExists "drive".toList = false ∨
      env.fsExists ("drive".toList ++ "/".toList ++ localPath) = false ∨
      env.fsIsDirectory ("drive".toList ++ "/".toList ++ localPath) = true) :
    uploadFile env fuel localPath remotePath w =
      (.throw (.runtime_error
        (if env.fsExists "drive".toList = true then
          "File not found or invalid path: ".toList ++
            ("drive".toList ++ "/".toList ++ localPath)
         else "Directory \x27drive\x27 does not exist.".toList)), w) := by
  unfold uploadFile
  by_cases hd : env.fsExists "drive".toList = true
  · have h2 : (!env.fsExists ("drive".toList ++ "/".toList ++ localPath) ||
        env.fsIsDirectory ("drive".toList ++ "/".toList ++ localPath)) = true := by
      rcases h with h | h | h
      · rw [hd] at h; cases h
      · rw [h]; rfl
      · rw [h]; simp
    simp only [hd, h2, Bool.not_true, Bool.false_eq_true, if_false, if_true]
  · have hd1 : env.fsExists "drive".toList = false := by simpa using hd
    simp only [hd1, Bool.not_false, if_true, Bool.false_eq_true, if_false]

/-- C8 as amended, at a file that is not there. -/
theorem uploadFile_not_found_witness :
    uploadFile (scriptEnv [pasvReply] 3 [] []) 5 "missing.txt".toList "remote.txt".toList
        World.init =
      (.throw (.runtime_error "File not found or invalid path: drive/missing.txt".toList),
        World.init) :=
  uploadFile_not_found (scriptEnv [pasvReply] 3 [] []) 5 "missing.txt".toList
    "remote.txt".toList World.init (Or.inr (Or.inl (by decide)))

/-- C8 as stated fails: `../secret.txt` names a file outside the storage
root, and `uploadFile` negotiates the data connection and sends the file. -/
theorem uploadFile_outside_root_counterexample :
    leavesRoot "../secret.txt".toList = true ∧
    (uploadFile (scriptEnv [pasvReply, "150 Ok to send data\r\n".toList,
        "226 Transfer complete\r\n".toList] 3 []
        [("drive/../secret.txt".toList, "top secret".toList)])
      12 "../secret.txt".toList "loot.txt".toList World.init).1 = .ok () ∧
    [Event.send 3 "PASV\r\n".toList 6, .recv 3 8191 46 pasvReply, .socket 4,
       .connect 4 "127.0.0.1".toList 5001 0,
       .send 3 "STOR loot.txt\r\n".toList 15] <+:
      (uploadFile (scriptEnv [pasvReply, "150 Ok to send data\r\n".toList,
        "226 Transfer complete\r\n".toList] 3 []
        [("drive/../secret.txt".toList, "top secret".toList)])
      12 "../secret.txt".toList "loot.txt".toList World.init).2.trace := by
  have h := uploadFile_run (scriptEnv [pasvReply, "150 Ok to send data\r\n".toList,
        "226 Transfer complete\r\n".toList] 3 []
        [("drive/../secret.txt".toList, "top secret".toList)])
      12 "../secret.txt".toList "loot.txt".toList "top secret".toList World.init
      (enterPassiveMode (scriptEnv [pasvReply, "150 Ok to send data\r\n".toList,
        "226 Transfer complete\r\n".toList] 3 []
        [("drive/../secret.txt".toList, "top secret".toList)]) World.init).2
      4 "150 Ok to send data\r\n".toList "226 Transfer complete\r\n".toList
      (by decide) (by decide) (by decide) (by decide)
      (Prod.ext (by decide) rfl) (by decide) (by decide) (by decide)
      (fun i buf hb => by
        have := List.length_pos.2 hb
        simp only [scriptEnv]
        omega)
      (by decide)
  have hprep : (c_str ("150 Ok to send data\r\n".toList.take (BUFFER_SIZE - 1))).take 3 =
      "150".toList ∨ (c_str ("150 Ok to send data\r\n".toList.take (BUFFER_SIZE - 1))).take 3 =
      "125".toList := Or.inl (by decide)
  refine ⟨by rfl, h.1.2 ⟨hprep, Or.inl (by decide)⟩, ?_⟩
  obtain ⟨evs, _, _, ht⟩ := (h.2.2 hprep).2
  rw [ht]
  have hw1 : (enterPassiveMode (scriptEnv [pasvReply, "150 Ok to send data\r\n".toList,
        "226 Transfer complete\r\n".toList] 3 []
        [("drive/../secret.txt".toList, "top secret".toList)]) World.init).2.trace =
      [Event.send 3 "PASV\r\n".toList 6, .recv 3 8191 46 pasvReply, .socket 4,
       .connect 4 "127.0.0.1".toList 5001 0] := by decide
  rw [hw1]
  refine List.IsPrefix.trans (List.IsPrefix.trans
    ⟨[Event.recv 3 8191 21 "150 Ok to send data\r\n".toList], ?_⟩
    (List.prefix_append _ _)) (List.prefix_append _ _)
  decide

/-! ## Control channel: partial writes -/

/-- C10, as the code has it. `sendCommand` offers the command followed by
CRLF to the control socket in one `send`; it throws the transport error exactly
when that `send` returns a negative value and returns normally otherwise, also
when fewer bytes than the whole line were written. -/
theorem sendCommand_single_write (env : Env) (cmd : Str) (w : World) :
    (sendCommand env cmd w).2.trace = w.trace ++
      [.send env.controlSocket (cmd ++ "\r\n".toList)
        (env.ctrlSend w.nCtrlSend (cmd ++ "\r\n".toList))] ∧
    ((sendCommand env cmd w).1 = .throw (.runtime_error
        ("Failed to send command: ".toList ++ env.strerror (w.trace.length + 1))) ↔
      env.ctrlSend w.nCtrlSend (cmd ++ "\r\n".toList) < 0) ∧
    ((sendCommand env cmd w).1 = .ok () ↔
      0 ≤ env.ctrlSend w.nCtrlSend (cmd ++ "\r\n".toList)) := by
  have htrace : (sendCommand env cmd w).2.trace = w.trace ++
      [.send env.controlSocket (cmd ++ "\r\n".toList)
        (env.ctrlSend w.nCtrlSend (cmd ++ "\r\n".toList))] := by
    unfold sendCommand
    simp only [sysSendCtrl]
    split <;> rfl
  refine ⟨htrace, ?_⟩
  by_cases h : env.ctrlSend w.nCtrlSend (cmd ++ "\r\n".toList) < 0
  · have hout : (sendCommand env cmd w).1 = .throw (.runtime_error
        ("Failed to send command: ".toList ++ env.strerror (w.trace.length + 1))) := by
      simp only [sendCommand, sysSendCtrl, h, if_true, errnoText, List.length_append,
        List.length_singleton]
    rw [hout]
    exact ⟨⟨fun _ => h, fun _ => rfl⟩, ⟨fun h1 => (by cases h1), fun h1 => (by omega)⟩⟩
  · have hout : (sendCommand env cmd w).1 = .ok () := by
      simp only [sendCommand, sysSendCtrl, h, if_false]
    rw [hout]
    exact ⟨⟨fun h1 => (by cases h1), fun h1 => absurd h1 h⟩, ⟨fun _ => (by omega), fun _ => rfl⟩⟩

/-- C10 as stated fails: a `send` that takes two of the six bytes of
`PASV` and CRLF is a partial write, and `sendCommand` returns normally. -/
theorem sendCommand_partial_write_counterexample :
    (sendCommand (shortWriteEnv []) "PASV".toList World.init).1 = .ok () ∧
    (sendCommand (shortWriteEnv []) "PASV".toList World.init).2.trace =
      [.send 3 "PASV\r\n".toList 2] ∧
    (2 : Int) < (("PASV".toList ++ "\r\n".toList).length : Int) := by
  refine ⟨by decide, by decide, by decide⟩

/-! ## Data connections left open -/

theorem grows_andThen {α β : Type} (m : M α) (f : α → M β) (hm : Grows m)
    (hf : ∀ a, Grows (f a)) : Grows (andThen m f) := by
  intro w
  have h1 := hm w
  unfold andThen
  rcases hmw : m w with ⟨o, w1⟩
  rw [hmw] at h1
  cases o with
  | ok a => exact h1.trans (hf a w1)
  | throw e => exact h1
  | undefined => exact h1
  | diverge => exact h1

theorem prefix_andThen {α β : Type} (m : M α) (f : α → M β) (hf : ∀ a, Grows (f a))
    (w : World) : (m w).2.trace <+: (andThen m f w).2.trace := by
  unfold andThen
  rcases hmw : m w with ⟨o, w1⟩
  cases o with
  | ok a => exact hf a w1
  | throw e => exact List.prefix_refl _
  | undefined => exact List.prefix_refl _
  | diverge => exact List.prefix_refl _

theorem grows_effect (g : World → World) (hg : ∀ w, w.trace <+: (g w).trace) :
    Grows (effect g) := fun w => hg w

theorem grows_sendCommand (env : Env) (cmd : Str) : Grows (sendCommand env cmd) := by
  intro w
  unfold sendCommand
  simp only [sysSendCtrl]
  split <;> exact List.prefix_append _ _

theorem grows_readResponse (env : Env) : Grows (readResponse env) := by
  intro w
  unfold readResponse sysRecvCtrl
  cases env.ctrlRecv w.nCtrlRecv with
  | none =>
    simp only
    split <;> exact List.prefix_append _ _
  | some bytes =>
    simp only
    split <;> exact List.prefix_append _ _

theorem grows_recvLoop (env : Env) (fd : Int) (sink : Str → World → World)
    (hsink : ∀ s w, (sink s w).trace = w.trace) (fuel : Nat) :
    Grows (recvLoop env fd sink fuel) := by
  induction fuel with
  | zero => intro w; exact List.prefix_refl _
  | succ fuel ih =>
    intro w
    rw [recvLoop]
    simp only [sysRecvData_snd]
    have hstep : w.trace <+: (afterDataRecv env fd w).trace := List.prefix_append _ _
    split
    · have h2 := ih (sink (sysRecvData env fd BUFFER_SIZE w).1.2 (afterDataRecv env fd w))
      rw [hsink] at h2
      exact hstep.trans h2
    · exact hstep

theorem prefix_listFiles (env : Env) (fuel : Nat) (w : World) :
    (enterPassiveMode env w).2.trace <+: (listFiles env fuel w).2.trace := by
  unfold listFiles
  apply prefix_andThen
  intro fd
  apply grows_andThen _ _ (grows_sendCommand env _)
  intro _
  apply grows_andThen _ _ (grows_readResponse env)
  intro response
  apply grows_andThen _ _ (grows_effect (putOut response) (fun w => List.prefix_refl _))
  intro _
  apply grows_andThen _ _ (grows_recvLoop env fd putOut (fun _ _ => rfl) fuel)
  intro _
  apply grows_andThen _ _ (grows_effect (sysClose fd) (fun w => List.prefix_append _ _))
  intro _
  apply grows_andThen _ _ (grows_readResponse env)
  intro final
  exact grows_effect (putOut final) (fun w => List.prefix_refl _)

theorem peakOpen_ge (t : List Event) : ∀ (acc : List Int) (peak : Nat),
    peak ≤ peakOpen t acc peak := by
  induction t with
  | nil => intro acc peak; exact Nat.le_refl _
  | cons e t ih =>
    intro acc peak
    cases e with
    | connect fd ip port ret =>
      simp only [peakOpen]
      split
      · exact ih _ _
      · exact Nat.le_trans (Nat.le_max_left _ _) (ih _ _)
    | close fd => exact ih _ _
    | send _ _ _ => exact ih _ _
    | recv _ _ _ _ => exact ih _ _
    | socket _ => exact ih _ _

theorem peakOpen_append_ge (t r : List Event) : ∀ (acc : List Int) (peak : Nat),
    peakOpen t acc peak ≤ peakOpen (t ++ r) acc peak := by
  induction t with
  | nil => intro acc peak; exact peakOpen_ge r acc peak
  | cons e t ih =>
    intro acc peak
    cases e with
    | connect fd ip port ret =>
      simp only [peakOpen, List.cons_append]
      split
      · exact ih _ _
      · exact ih _ _
    | close fd => exact ih _ _
    | send _ _ _ => exact ih _ _
    | recv _ _ _ _ => exact ih _ _
    | socket _ => exact ih _ _

/-- C9, on the code: after the server refuses STOR, `uploadFile` throws with
the data connection it opened still open, and the next operation opens a
second one beside it. -/
theorem uploadFile_rejected_leaves_connection_open :
    (uploadFile rejectingEnv 13 "local.txt".toList "remote.txt".toList World.init).1 =
      .throw (.runtime_error
        "Failed to initiate file upload: 550 Permission denied\r\n".toList) ∧
    openData (uploadFile rejectingEnv 13 "local.txt".toList "remote.txt".toList
      World.init).2.trace [] = [4] ∧
    2 ≤ peakOpen (listFiles rejectingEnv 13
      (uploadFile rejectingEnv 13 "local.txt".toList "remote.txt".toList
        World.init).2).2.trace [] 0 := by
  have h := uploadFile_run rejectingEnv 13 "local.txt".toList "remote.txt".toList
    "hello world".toList World.init (enterPassiveMode rejectingEnv World.init).2 4
    "550 Permission denied\r\n".toList
    "227 Entering Passive Mode (127,0,0,1,19,138)\r\n".toList
    (by decide) (by decide) (by decide) (by decide)
    (Prod.ext (by decide) rfl) (by decide) (by decide) (by decide)
    (fun i buf hb => by
      have := List.length_pos.2 hb
      simp only [rejectingEnv, scriptEnv]
      omega)
    (by decide)
  obtain ⟨hout, hworld, _, htrace⟩ := h.2.1 (by decide)
  refine ⟨hout, ?_, ?_⟩
  · rw [htrace]
    decide
  · rw [hworld]
    have hpeak : peakOpen (enterPassiveMode rejectingEnv
        (putErr (neitherDiag (c_str ("550 Permission denied\r\n".toList.take (BUFFER_SIZE - 1)))
            "150".toList "125".toList)
          (afterCtrlRecv rejectingEnv "550 Permission denied\r\n".toList
            (afterCtrlSend rejectingEnv
              ("STOR ".toList ++ "remote.txt".toList ++ "\r\n".toList)
              (enterPassiveMode rejectingEnv World.init).2)))).2.trace [] 0 = 2 := by
      decide
    obtain ⟨rest, hrest⟩ := prefix_listFiles rejectingEnv 13
      (putErr (neitherDiag (c_str ("550 Permission denied\r\n".toList.take (BUFFER_SIZE - 1)))
            "150".toList "125".toList)
          (afterCtrlRecv rejectingEnv "550 Permission denied\r\n".toList
            (afterCtrlSend rejectingEnv
              ("STOR ".toList ++ "remote.txt".toList ++ "\r\n".toList)
              (enterPassiveMode rejectingEnv World.init).2)))
    rw [← hrest, ← hpeak]
    exact peakOpen_append_ge _ _ _ _

/-! ## The dispatchers: validation of the remote path -/

theorem indexFrom_some_of_mem (c : Char) (s : Str) (i : Nat) (h : c ∈ s) :
    ∃ j, indexFrom c s i = some j ∧ j < i + s.length := by
  induction s generalizing i with
  | nil => simp at h
  | cons x xs ih =>
    by_cases hx : x = c
    · exact ⟨i, by simp [indexFrom, hx], by simp⟩
    · have hmem : c ∈ xs := by
        rcases List.mem_cons.1 h with h1 | h1
        · exact absurd h1.symm hx
        · exact h1
      obtain ⟨j, hj, hlt⟩ := ih (i + 1) hmem
      refine ⟨j, by simp [indexFrom, hx, hj], ?_⟩
      simp only [List.length_cons]
      omega

theorem find_ne_npos_iff (s : Str) (c : Char) (hlen : s.length < 2 ^ 64) :
    find s c 0 ≠ npos ↔ c ∈ s := by
  constructor
  · intro h
    by_contra hmem
    exact h (find_zero_of_not_mem c s hmem)
  · intro hmem
    obtain ⟨j, hj, hlt⟩ := indexFrom_some_of_mem c s 0 hmem
    have hfind : find s c 0 = j := by simp [find, hj]
    rw [hfind]
    unfold npos
    omega

theorem checkUnpermitted_false_iff (remotePath : Str) (hlen : remotePath.length < 2 ^ 64)
    (cs : Str) :
    (checkUnpermitted remotePath cs).1 = false ↔ ∃ c ∈ cs, c ∈ remotePath := by
  induction cs with
  | nil => simp [checkUnpermitted]
  | cons c cs ih =>
    by_cases hc : c ∈ remotePath
    · have hf := (find_ne_npos_iff remotePath c hlen).2 hc
      simp only [checkUnpermitted, hf, ne_eq, not_false_eq_true, if_true, true_iff]
      exact ⟨c, List.mem_cons_self _ _, hc⟩
    · have hf : ¬ (find remotePath c 0 ≠ npos) := fun h =>
        hc ((find_ne_npos_iff remotePath c hlen).1 h)
      simp only [checkUnpermitted, hf, if_false, ih]
      constructor
      · rintro ⟨d, hd, hmem⟩
        exact ⟨d, List.mem_cons_of_mem _ hd, hmem⟩
      · rintro ⟨d, hd, hmem⟩
        rcases List.mem_cons.1 hd with h1 | h1
        · rw [h1] at hmem
          exact absurd hmem hc
        · exact ⟨d, h1, hmem⟩

/-- `downloadFileValid` refuses exactly the empty path and the paths that
hold one of the characters `/ \ : * ? " < > |`. -/
theorem downloadFileValid_false_iff (remotePath : Str) (hlen : remotePath.length < 2 ^ 64) :
    (ServerController.downloadFileValid remotePath).1 = false ↔
      remotePath = [] ∨ ∃ c ∈ unpermitted, c ∈ remotePath := by
  unfold ServerController.downloadFileValid
  cases remotePath with
  | nil => simp
  | cons x xs =>
    simp only [List.isEmpty_cons, Bool.false_eq_true, if_false,
      checkUnpermitted_false_iff (x :: xs) hlen unpermitted]
    simp

/-- `ServerController::downloadFile` on a path that `downloadFileValid`
refuses: it returns with two lines on `std::cerr` and nothing else done. -/
theorem controller_downloadFile_refused (env : Env) (fuel : Nat) (remotePath localPath : Str)
    (w : World) (h : (ServerController.downloadFileValid remotePath).1 = false) :
    ServerController.downloadFile env fuel remotePath localPath w =
      (.ok (), putErr "Invalid path\n".toList
        (putErr (ServerController.downloadFileValid remotePath).2 w)) := by
  unfold ServerController.downloadFile
  simp only [h, beq_self_eq_true, if_true]

/-- `ServerController::downloadFile` on a path that `downloadFileValid`
accepts: the call of `FTPClient::downloadFile` inside the `try` block. -/
theorem controller_downloadFile_accepted (env : Env) (fuel : Nat)
    (remotePath localPath : Str) (w : World)
    (h : (ServerController.downloadFileValid remotePath).1 = true) :
    ServerController.downloadFile env fuel remotePath localPath w =
      tryCatch (FTPClient.downloadFile env fuel remotePath localPath)
        "Failed to download file: ".toList
        (putErr (ServerController.downloadFileValid remotePath).2 w) := by
  unfold ServerController.downloadFile
  simp [h]

/-! ## The dispatchers: the loop of `main` -/

theorem andThen_liftPure_snd {α β : Type} (m : M α) (o : Outcome β) (w : World) :
    (andThen m (fun _ => liftPure o) w).2 = (m w).2 := by
  unfold andThen liftPure
  rcases hmw : m w with ⟨r, w1⟩
  cases r <;> rfl

theorem grows_liftPure {α : Type} (o : Outcome α) : Grows (liftPure o) :=
  fun _ => List.prefix_refl _

theorem grows_checkCode (response expectedCode : Str) :
    Grows (checkCode response expectedCode) := fun _ => List.prefix_refl _

/-- What `downloadFile` does after the RETR command has been sent only adds
to the trace. -/
theorem grows_downloadRest (env : Env) (fuel : Nat) (fd : Int) (remotePath path : Str) :
    Grows (andThen (readResponse env) fun response =>
      andThen (effect (putOut response)) fun _ =>
      if !env.openWrite path then
        liftPure (.throw (.runtime_error ("Failed to create file: ".toList ++ path)))
      else
        andThen (effect (fileCreate path)) fun _ =>
        andThen (recvLoop env fd (fileAppend path) fuel) fun _ =>
        andThen (effect (sysClose fd)) fun _ =>
        andThen (readResponse env) fun final =>
        andThen (checkCode final "226".toList) fun is226 =>
        if !is226 then
          liftPure (.throw (.runtime_error ("Failed to download file: ".toList ++ final)))
        else effect (putOut ("File downloaded successfully: ".toList ++
          remotePath ++ "\n".toList))) := by
  apply grows_andThen _ _ (grows_readResponse env)
  intro response
  apply grows_andThen _ _ (grows_effect (putOut response) (fun w => List.prefix_refl _))
  intro _
  split
  · exact grows_liftPure _
  · apply grows_andThen _ _ (grows_effect (fileCreate path) (fun w => List.prefix_refl _))
    intro _
    apply grows_andThen _ _ (grows_recvLoop env fd (fileAppend path) (fun _ _ => rfl) fuel)
    intro _
    apply grows_andThen _ _ (grows_effect (sysClose fd) (fun w => List.prefix_append _ _))
    intro _
    apply grows_andThen _ _ (grows_readResponse env)
    intro final
    apply grows_andThen _ _ (grows_checkCode final "226".toList)
    intro is226
    split
    · exact grows_liftPure _
    · exact grows_effect _ (fun w => List.prefix_refl _)

/-- Once passive mode is negotiated and the RETR command accepted, the trace
of `downloadFile` starts with the negotiation and that command. -/
theorem prefix_downloadFile (env : Env) (fuel : Nat) (remotePath localPath : Str)
    (w w1 : World) (fd : Int)
    (hpasv : enterPassiveMode env (downloadStart env w) = (.ok fd, w1))
    (hretr : 0 ≤ env.ctrlSend w1.nCtrlSend ("RETR ".toList ++ remotePath ++ "\r\n".toList)) :
    w1.trace ++ [.send env.controlSocket ("RETR ".toList ++ remotePath ++ "\r\n".toList)
        (env.ctrlSend w1.nCtrlSend ("RETR ".toList ++ remotePath ++ "\r\n".toList))] <+:
      (FTPClient.downloadFile env fuel remotePath localPath w).2.trace := by
  unfold FTPClient.downloadFile
  simp only
  rw [andThen_ok _ _ _ _ _ hpasv, andThen_ok _ _ _ _ _ (sendCommand_ok env _ w1 hretr)]
  exact grows_downloadRest env fuel fd remotePath ("drive".toList ++ "/".toList ++ localPath)
    (afterCtrlSend env ("RETR ".toList ++ remotePath ++ "\r\n".toList) w1)

/-- C11, on the code: `downloadFileValid` refuses `../secret.txt`, and
`ServerController::downloadFile` then leaves the network alone; but the `retr`
branch of `main` does not go through either: it calls
`FTPClient::downloadFile` with that path, and the RETR command for it is sent. -/
theorem retr_skips_downloadFileValid :
    (ServerController.downloadFileValid "../secret.txt".toList).1 = false ∧
    (ServerController.downloadFile
      (scriptEnv [pasvReply, "150 Opening data connection\r\n".toList,
        "226 Transfer complete\r\n".toList] 3 ["top secret".toList] [])
      3 "../secret.txt".toList "copy.txt".toList World.init).2.trace = [] ∧
    dispatch "retr ../secret.txt copy.txt".toList =
      .ok (.downloadFile "../secret.txt".toList "copy.txt".toList) ∧
    (∀ (env : Env) (fuel : Nat) (w : World),
      replStep env fuel "retr ../secret.txt copy.txt".toList w =
        andThen (FTPClient.downloadFile env fuel "../secret.txt".toList "copy.txt".toList)
          (fun _ => liftPure (.ok true)) w) ∧
    [Event.send 3 "PASV\r\n".toList 6, .recv 3 8191 46 pasvReply, .socket 4,
       .connect 4 "127.0.0.1".toList 5001 0,
       .send 3 "RETR ../secret.txt\r\n".toList 20] <+:
      (replStep
        (scriptEnv [pasvReply, "150 Opening data connection\r\n".toList,
          "226 Transfer complete\r\n".toList] 3 ["top secret".toList] [])
        3 "retr ../secret.txt copy.txt".toList World.init).2.trace := by
  have hvalid : (ServerController.downloadFileValid "../secret.txt".toList).1 = false := by
    decide
  have hdisp : dispatch "retr ../secret.txt copy.txt".toList =
      .ok (.downloadFile "../secret.txt".toList "copy.txt".toList) := by decide
  have hstep : ∀ (env : Env) (fuel : Nat) (w : World),
      replStep env fuel "retr ../secret.txt copy.txt".toList w =
        andThen (FTPClient.downloadFile env fuel "../secret.txt".toList "copy.txt".toList)
          (fun _ => liftPure (.ok true)) w := by
    intro env fuel w
    unfold replStep
    rw [hdisp]
  refine ⟨hvalid, ?_, hdisp, hstep, ?_⟩
  · rw [controller_downloadFile_refused _ _ _ _ _ hvalid]
    rfl
  · rw [hstep, andThen_liftPure_snd]
    have hpre := prefix_downloadFile
      (scriptEnv [pasvReply, "150 Opening data connection\r\n".toList,
        "226 Transfer complete\r\n".toList] 3 ["top secret".toList] [])
      3 "../secret.txt".toList "copy.txt".toList World.init
      (enterPassiveMode
        (scriptEnv [pasvReply, "150 Opening data connection\r\n".toList,
          "226 Transfer complete\r\n".toList] 3 ["top secret".toList] []) World.init).2
      4 (Prod.ext (by decide) rfl) (by decide)
    have hlist : (enterPassiveMode
        (scriptEnv [pasvReply, "150 Opening data connection\r\n".toList,
          "226 Transfer complete\r\n".toList] 3 ["top secret".toList] []) World.init).2.trace ++
        [Event.send (scriptEnv [pasvReply, "150 Opening data connection\r\n".toList,
          "226 Transfer complete\r\n".toList] 3 ["top secret".toList] []).controlSocket
          ("RETR ".toList ++ "../secret.txt".toList ++ "\r\n".toList)
          ((scriptEnv [pasvReply, "150 Opening data connection\r\n".toList,
            "226 Transfer complete\r\n".toList] 3 ["top secret".toList] []).ctrlSend
            (enterPassiveMode
              (scriptEnv [pasvReply, "150 Opening data connection\r\n".toList,
                "226 Transfer complete\r\n".toList] 3 ["top secret".toList] [])
              World.init).2.nCtrlSend
            ("RETR ".toList ++ "../secret.txt".toList ++ "\r\n".toList))] =
        [Event.send 3 "PASV\r\n".toList 6, .recv 3 8191 46 pasvReply, .socket 4,
          .connect 4 "127.0.0.1".toList 5001 0,
          .send 3 "RETR ../secret.txt\r\n".toList 20] := by decide
    rw [hlist] at hpre
    exact hpre

/-! ## The dispatchers: `getTokens` -/

theorem skipSpaces_length_le (s : Str) : (skipSpaces s).length ≤ s.length := by
  induction s with
  | nil => simp [skipSpaces]
  | cons c cs ih =>
    unfold skipSpaces
    split
    · simp only [List.length_cons]; omega
    · exact Nat.le_refl _

theorem scanToken_snd_length_le (s : Str) : (scanToken s).2.length ≤ s.length := by
  induction s with
  | nil => simp [scanToken]
  | cons c cs ih =>
    unfold scanToken
    split
    · simp only [List.length_cons]; omega
    · exact Nat.le_refl _

theorem scan_skip_length_lt (s : Str) (h : s ≠ []) :
    (scanToken (skipSpaces s)).2.length < s.length := by
  cases s with
  | nil => exact absurd rfl h
  | cons c cs =>
    by_cases hc : isspace c = true
    · have h1 : skipSpaces (c :: cs) = skipSpaces cs := by simp [skipSpaces, hc]
      rw [h1]
      have h2 := scanToken_snd_length_le (skipSpaces cs)
      have h3 := skipSpaces_length_le cs
      simp only [List.length_cons]
      omega
    · have hc1 : isspace c = false := by simpa using hc
      have h1 : skipSpaces (c :: cs) = c :: cs := by simp [skipSpaces, hc1]
      have h2 : (scanToken (c :: cs)).2 = (scanToken cs).2 := by simp [scanToken, hc1]
      rw [h1, h2]
      have h3 := scanToken_snd_length_le cs
      simp only [List.length_cons]
      omega

theorem scanToken_fst_no_space (s : Str) : ∀ c ∈ (scanToken s).1, isspace c = false := by
  induction s with
  | nil => simp [scanToken]
  | cons x xs ih =>
    intro c hc
    by_cases hx : isspace x = true
    · simp [scanToken, hx] at hc
    · have hx1 : isspace x = false := by simpa using hx
      simp only [scanToken, hx1, Bool.not_false, if_true, List.mem_cons] at hc
      rcases hc with hc | hc
      · rw [hc]; exact hx1
      · exact ih c hc

theorem skipSpaces_of_all_space (s : Str) (h : ∀ c ∈ s, isspace c = true) :
    skipSpaces s = [] := by
  induction s with
  | nil => rfl
  | cons x xs ih =>
    have hx : isspace x = true := h x (List.mem_cons_self _ _)
    simp only [skipSpaces, hx, if_true]
    exact ih (fun c hc => h c (List.mem_cons_of_mem _ hc))

theorem skipSpaces_of_some_char (s : Str) (h : ∃ c ∈ s, isspace c = false) :
    ∃ c cs, skipSpaces s = c :: cs ∧ isspace c = false := by
  induction s with
  | nil =>
    obtain ⟨c, hc, _⟩ := h
    simp at hc
  | cons x xs ih =>
    by_cases hx : isspace x = true
    · obtain ⟨c, hc, hsp⟩ := h
      have hmem : c ∈ xs := by
        rcases List.mem_cons.1 hc with h1 | h1
        · rw [h1, hx] at hsp
          cases hsp
        · exact h1
      obtain ⟨d, ds, h1, h2⟩ := ih ⟨c, hmem, hsp⟩
      exact ⟨d, ds, by simp [skipSpaces, hx, h1], h2⟩
    · have hx1 : isspace x = false := by simpa using hx
      exact ⟨x, xs, by simp [skipSpaces, hx1], hx1⟩

theorem tokensLoop_spec : ∀ (fuel : Nat) (rest : Str) (tokens : List Str),
    rest.length < fuel →
    ∃ out, tokensLoop fuel rest tokens = .ok out ∧ tokens <+: out ∧
      ((∀ t ∈ tokens, t ≠ [] ∧ ∀ c ∈ t, isspace c = false) →
        ∀ t ∈ out, t ≠ [] ∧ ∀ c ∈ t, isspace c = false) ∧
      ((∃ c ∈ rest, isspace c = false) → out ≠ []) ∧
      ((∀ c ∈ rest, isspace c = true) → out = tokens) := by
  intro fuel
  induction fuel with
  | zero => intro rest tokens h; omega
  | succ fuel ih =>
    intro rest tokens hfuel
    by_cases hrest : rest = []
    · subst hrest
      refine ⟨tokens, by simp [tokensLoop], List.prefix_refl _, fun h => h, ?_, fun _ => rfl⟩
      rintro ⟨c, hc, _⟩
      simp at hc
    · have hlt := scan_skip_length_lt rest hrest
      obtain ⟨out, h1, h2, h3, _, h5⟩ := ih (scanToken (skipSpaces rest)).2
        (if (scanToken (skipSpaces rest)).1 ≠ [] then
          tokens ++ [(scanToken (skipSpaces rest)).1] else tokens) (by omega)
      have hpre : tokens <+: (if (scanToken (skipSpaces rest)).1 ≠ [] then
          tokens ++ [(scanToken (skipSpaces rest)).1] else tokens) := by
        split
        · exact List.prefix_append _ _
        · exact List.prefix_refl _
      refine ⟨out, ?_, hpre.trans h2, ?_, ?_, ?_⟩
      · rw [tokensLoop]
        simp only [hrest, ne_eq, not_false_eq_true, if_true]
        exact h1
      · intro hgood
        apply h3
        intro t ht
        split at ht
        · rename_i hne
          rcases List.mem_append.1 ht with ht | ht
          · exact hgood t ht
          · simp only [List.mem_singleton] at ht
            rw [ht]
            exact ⟨hne, scanToken_fst_no_space _⟩
        · exact hgood t ht
      · intro hsome
        obtain ⟨c, cs, hskip, hc⟩ := skipSpaces_of_some_char rest hsome
        have hne : (scanToken (skipSpaces rest)).1 ≠ [] := by
          rw [hskip]
          simp [scanToken, hc]
        rw [if_pos hne] at h2
        intro hout
        rw [hout] at h2
        have := List.prefix_nil.1 h2
        simp at this
      · intro hall
        have hskip := skipSpaces_of_all_space rest hall
        have hscan : scanToken (skipSpaces rest) = ([], []) := by
          rw [hskip]; rfl
        rw [hscan] at h5
        have := h5 (by intro c hc; simp at hc)
        rw [this]
        simp

/-- `getTokens` returns; every token is non-empty and free of white space;
there is a token exactly when the line holds a character that is not white
space. -/
theorem getTokens_spec (str : Str) :
    ∃ tokens, getTokens str = .ok tokens ∧
      (∀ t ∈ tokens, t ≠ [] ∧ ∀ c ∈ t, isspace c = false) ∧
      ((∃ c ∈ str, isspace c = false) → tokens ≠ []) ∧
      ((∀ c ∈ str, isspace c = true) → tokens = []) := by
  obtain ⟨out, h1, _, h3, h4, h5⟩ := tokensLoop_spec (str.length + 1) str [] (by omega)
  exact ⟨out, h1, h3 (by intro t ht; simp at ht), h4, h5⟩

/-- On a line that is not empty and holds only white space, `main` reads
`tokens[0]` from an empty vector. -/
theorem dispatch_blank_line (command : Str) (hne : command ≠ [])
    (hall : ∀ c ∈ command, isspace c = true) : dispatch command = .undefined := by
  obtain ⟨tokens, h1, _, _, h4⟩ := getTokens_spec command
  have hnil := h4 hall
  subst hnil
  have hemp : command.isEmpty = false := by
    cases command with
    | nil => exact absurd rfl hne
    | cons _ _ => rfl
  unfold dispatch
  simp only [hemp, Bool.false_eq_true, if_false, h1]
  rfl

/-- On a line that holds a character that is not white space, every
`tokens[i]` that `main` reads is in bounds. -/
theorem dispatch_in_bounds (command : Str) (hsome : ∃ c ∈ command, isspace c = false) :
    ∃ call, dispatch command = .ok call := by
  obtain ⟨tokens, h1, _, h3, _⟩ := getTokens_spec command
  have hne := h3 hsome
  have hemp : command.isEmpty = false := by
    cases command with
    | nil =>
      obtain ⟨c, hc, _⟩ := hsome
      simp at hc
    | cons _ _ => rfl
  unfold dispatch
  simp only [hemp, Bool.false_eq_true, if_false, h1]
  match tokens, hne with
  | [t0], _ => simp only [tokenAt, List.get?]; split_ifs <;> simp_all
  | [t0, t1], _ => simp only [tokenAt, List.get?]; split_ifs <;> simp_all
  | [t0, t1, t2], _ => simp only [tokenAt, List.get?]; split_ifs <;> simp
  | t0 :: t1 :: t2 :: t3 :: ts, _ => simp only [tokenAt, List.get?]; split_ifs <;> simp_all

/-- C12, on the code: the line made of one space passes the emptiness check
of `main`, `getTokens` returns no token for it, and the read of `tokens[0]` is
past the end of the vector. -/
theorem blank_line_reads_past_tokens :
    (" ".toList).isEmpty = false ∧
    getTokens " ".toList = .ok [] ∧
    dispatch " ".toList = .undefined ∧
    (∀ (env : Env) (fuel : Nat) (w : World),
      replStep env fuel " ".toList w = (.undefined, w)) := by
  have hdisp : dispatch " ".toList = .undefined := by decide
  refine ⟨by decide, by decide, hdisp, ?_⟩
  intro env fuel w
  unfold replStep
  rw [hdisp]
  rfl

end FTPClient
